import Mathlib

/-!
RM6100 demo application: connection-health handling.

A shallow embedding of `src/main.cpp` (the RM6100 cellular demo for mbed) and
theorems about its status callback, its connect routine, its traffic loop and
its start-up sequence.

Conventions of the embedding.

* Every function that talks to the board or to the SDK returns the list of
  externally visible actions it performs, in program order (`Action`).
* `NVIC_SystemReset()` does not return.  A trace that contains
  `Action.NVIC_SystemReset` ends there; `andThen` sequences two pieces of code
  and drops the second one when the first has already reset the system.
* The enumerations of the SDK (`nsapi_connection_status_t`,
  `cellular_connection_status_t`, `nsapi_error_t`) are declared in SDK headers
  that are not part of the repository.  They are embedded symbolically: one
  constructor per enumerator that `main.cpp` names, and a constructor
  `unlisted raw` for every value that equals none of those enumerators.
* `status_callback` is invoked by the cellular stack from its own context; the
  embedding treats each invocation on its own and does not model interleaving
  with the main thread.
-/

namespace RM6100

/-! ## SDK types used by `main.cpp` -/

/-- Connection status values carried by a `NSAPI_EVENT_CONNECTION_STATUS_CHANGE`
event and returned by `interface->get_connection_status()`.  `unlisted raw`
is any value matching none of the four case labels of lines 212-221. -/
inductive nsapi_connection_status_t where
  | NSAPI_STATUS_LOCAL_UP
  | NSAPI_STATUS_GLOBAL_UP
  | NSAPI_STATUS_CONNECTING
  | NSAPI_STATUS_DISCONNECTED
  | unlisted (raw : Int)
  deriving DecidableEq, Repr

/-- Cellular event codes, the case labels of lines 234-271.  `unlisted raw` is
any event code that is neither `NSAPI_EVENT_CONNECTION_STATUS_CHANGE` nor one
of the eleven labels. -/
inductive cellular_connection_status_t where
  | CellularDeviceReady
  | CellularSIMStatusChanged
  | CellularRegistrationStatusChanged
  | CellularRegistrationTypeChanged
  | CellularCellIDChanged
  | CellularRadioAccessTechnologyChanged
  | CellularAttachNetwork
  | CellularActivatePDPContext
  | CellularSignalQuality
  | CellularStateRetryEvent
  | CellularDeviceTimeout
  | unlisted (raw : Int)
  deriving DecidableEq, Repr

/-- Error codes of the network API.  `main.cpp` compares them only with
`NSAPI_ERROR_OK` and `NSAPI_ERROR_AUTH_FAILURE`; `unlisted raw` is any other
code. -/
inductive nsapi_error_t where
  | NSAPI_ERROR_OK
  | NSAPI_ERROR_AUTH_FAILURE
  | unlisted (raw : Int)
  deriving DecidableEq, Repr

/-- The record a cellular event points to (`cell_callback_data_t`), read at
lines 232-283 through `cb_status`. -/
structure cell_callback_data_t where
  error : nsapi_error_t
  status_data : Int
  final_try : Bool
  deriving DecidableEq, Repr

/-- The two arguments `(status, param)` of `status_callback`.  When `status` is
`NSAPI_EVENT_CONNECTION_STATUS_CHANGE` the integer `param` is the new
connection status itself (line 211); for every other `status` the callback
casts `param` to a pointer to a `cell_callback_data_t` (line 232). -/
inductive Event where
  | connection_status_change (param : nsapi_connection_status_t)
  | cellular (status : cellular_connection_status_t) (cb_status : cell_callback_data_t)
  deriving DecidableEq, Repr

/-! ## Observable actions -/

/-- Severity of the four logging macros used by `main.cpp`. -/
inductive LogLevel where
  | LOG_LO
  | LOG_HI
  | LOG_WARN
  | LOG_ERROR
  deriving DecidableEq, Repr

/-- The three modem control lines of lines 116-118. -/
inductive ModemPin where
  | modem_chen
  | modem_remap
  | modem_reset
  deriving DecidableEq, Repr

/-- Externally visible actions of the program. -/
inductive Action where
  /-- A call of one of the logging macros with the given format string. -/
  | log (level : LogLevel) (format : String)
  /-- A call `ThisThread::sleep_for(ms)`. -/
  | sleep_for (ms : Nat)
  /-- The call `NVIC_SystemReset()`; control never comes back. -/
  | NVIC_SystemReset
  /-- A call `device->_at->at_cmd_discard(cmd, cmd_chr)`. -/
  | at_cmd_discard (cmd : String) (cmd_chr : String)
  /-- A write `ledsPtr[index] = value`. -/
  | led_write (index : Nat) (value : Int)
  /-- A write of `value` to one of the modem control lines. -/
  | pin_write (pin : ModemPin) (value : Int)
  /-- The call `trace_open()`. -/
  | trace_open
  /-- The call `CellularContext::get_default_instance()`. -/
  | get_default_instance
  /-- A failed `MBED_ASSERT`; the program stops there. -/
  | assert_failure
  /-- The call `interface->attach(&status_callback)`. -/
  | attach_status_callback
  /-- The call `interface->set_default_parameters()`. -/
  | set_default_parameters
  /-- A call `interface->get_connection_status()`. -/
  | get_connection_status
  /-- A call `interface->connect()`. -/
  | connect
  /-- A call `send_dweet_signal(key, val)`. -/
  | send_dweet_signal (key : String) (val : Int)
  deriving DecidableEq, Repr

/-- Whether the trace has reached `NVIC_SystemReset()`. -/
def resets (t : List Action) : Bool :=
  t.contains Action.NVIC_SystemReset

/-- Sequential composition of two pieces of code: the second runs only when
the first has not reset the system. -/
def andThen (t k : List Action) : List Action :=
  if resets t then t else t ++ k

/-- The decision a handler takes: `Escalate` when it invokes
`SYSTEM_RECOVERY()`, `Continue` when it returns to its caller. -/
inductive Decision where
  | Continue
  | Escalate
  deriving DecidableEq, Repr

/-- Reads the decision off a trace. -/
def decision (t : List Action) : Decision :=
  if resets t then Decision.Escalate else Decision.Continue

/-! ## Macros of `main.cpp` -/

def LED_ON : Int := 0
def LED_OFF : Int := 1
def SGNL_ACTV : Int := 0
def SGNL_INACTV : Int := 1

/-- The macro `SYSTEM_RECOVERY()` (lines 59-64). -/
def SYSTEM_RECOVERY : List Action :=
  [Action.log LogLevel.LOG_ERROR "SYSTEM RESET...",
   Action.sleep_for 2000,
   Action.NVIC_SystemReset]

def BAND3_EARFCN : Nat := 1440
def BAND5_EARFCN : Nat := 2525
def BAND28_EARFCN : Nat := 9300
def BAND2_EARFCN : Nat := 744
def BAND8_EARFCN : Nat := 3606
def BAND20_EARFCN : Nat := 6300
def BAND86_EARFCN : Nat := 70546

def RADIO_EARFCN : Nat := BAND5_EARFCN

/-- The preprocessor chain of lines 76-90.  When no branch matches the macro
stays undefined, which is `none` here. -/
def RADIO_BAND : Option Nat :=
  if BAND3_EARFCN = RADIO_EARFCN then some 3
  else if BAND5_EARFCN = RADIO_EARFCN then some 5
  else if BAND28_EARFCN = RADIO_EARFCN then some 28
  else if BAND2_EARFCN = RADIO_EARFCN then some 2
  else if BAND8_EARFCN = RADIO_EARFCN then some 8
  else if BAND20_EARFCN = RADIO_EARFCN then some 20
  else if BAND86_EARFCN = RADIO_EARFCN then some 86
  else none

/-- The text `XSTR(RADIO_BAND)`: the decimal digits of the band, or the
macro name itself when the macro is undefined. -/
def XSTR_RADIO_BAND : String :=
  match RADIO_BAND with
  | some b => toString b
  | none => "RADIO_BAND"

/-- The text `XSTR(RADIO_EARFCN)`. -/
def XSTR_RADIO_EARFCN : String :=
  toString RADIO_EARFCN

/-! ## `status_callback` (lines 205-285) -/

/-- The format string shared by the cellular log lines, after the event name. -/
def cb_format (name : String) : String :=
  name ++ " (error=%d) (status=%d) (is_final_try=%d)"

/-- The switch over `param` of lines 211-229. -/
def connection_status_switch : nsapi_connection_status_t → List Action
  | .NSAPI_STATUS_LOCAL_UP =>
      [Action.log LogLevel.LOG_LO "Local IP address set (NSAPI_STATUS_LOCAL_UP)!"]
  | .NSAPI_STATUS_GLOBAL_UP =>
      [Action.log LogLevel.LOG_LO "Global IP address set (NSAPI_STATUS_GLOBAL_UP)!"]
  | .NSAPI_STATUS_CONNECTING =>
      [Action.log LogLevel.LOG_LO "Connecting to network (NSAPI_STATUS_CONNECTING)!"]
  | .NSAPI_STATUS_DISCONNECTED =>
      andThen [Action.log LogLevel.LOG_LO "No connection to network (NSAPI_STATUS_DISCONNECTED)!"]
        SYSTEM_RECOVERY
  | .unlisted _ =>
      andThen [Action.log LogLevel.LOG_ERROR "Not supported (%x%X)"] SYSTEM_RECOVERY

/-- The four modem commands of lines 238-241. -/
def radio_configuration : List Action :=
  [Action.at_cmd_discard "+CFUN" "=4",
   Action.at_cmd_discard "+BAND" ("=" ++ XSTR_RADIO_BAND),
   Action.at_cmd_discard "+CFUN" "=1",
   Action.at_cmd_discard "+EARFCN" ("=" ++ XSTR_RADIO_EARFCN)]

/-- The switch over the event code of lines 233-278. -/
def cellular_status_switch : cellular_connection_status_t → List Action
  | .CellularDeviceReady =>
      andThen [Action.log LogLevel.LOG_LO (cb_format "CellularDeviceReady")] radio_configuration
  | .CellularSIMStatusChanged =>
      [Action.log LogLevel.LOG_LO (cb_format "CellularSIMStatusChanged")]
  | .CellularRegistrationStatusChanged =>
      [Action.log LogLevel.LOG_LO (cb_format "CellularRegistrationStatusChanged")]
  | .CellularRegistrationTypeChanged =>
      [Action.log LogLevel.LOG_LO (cb_format "CellularRegistrationTypeChanged")]
  | .CellularCellIDChanged =>
      [Action.log LogLevel.LOG_LO (cb_format "CellularCellIDChanged")]
  | .CellularRadioAccessTechnologyChanged =>
      [Action.log LogLevel.LOG_LO (cb_format "CellularRadioAccessTechnologyChanged")]
  | .CellularAttachNetwork =>
      [Action.log LogLevel.LOG_LO (cb_format "CellularAttachNetwork")]
  | .CellularActivatePDPContext =>
      [Action.log LogLevel.LOG_LO (cb_format "CellularActivatePDPContext")]
  | .CellularSignalQuality =>
      [Action.log LogLevel.LOG_LO (cb_format "CellularSignalQuality")]
  | .CellularStateRetryEvent =>
      [Action.log LogLevel.LOG_HI (cb_format "CellularStateRetryEvent")]
  | .CellularDeviceTimeout =>
      []
  | .unlisted _ =>
      andThen [Action.log LogLevel.LOG_ERROR (cb_format "Not supported status")] SYSTEM_RECOVERY

/-- The check of lines 279-283 that follows the switch. -/
def unrecoverable_error_check (cb_status : cell_callback_data_t) : List Action :=
  if nsapi_error_t.NSAPI_ERROR_OK ≠ cb_status.error then
    andThen [Action.log LogLevel.LOG_ERROR (cb_format "Unrecoverable Error:")] SYSTEM_RECOVERY
  else []

/-- The function `status_callback`: the trace of one invocation.  The two
pointer look-ups of lines 207-208 have no visible effect and leave no trace. -/
def status_callback : Event → List Action
  | .connection_status_change param => connection_status_switch param
  | .cellular status cb_status =>
      andThen (cellular_status_switch status) (unrecoverable_error_check cb_status)

/-! ## `blink_led` (lines 290-300) -/

/-- One pass of the body of the loop of `blink_led`.  The chained assignment
`ledsPtr[0] = ledsPtr[1] = v` writes `ledsPtr[1]` first. -/
def blink_cycle : List Action :=
  [Action.led_write 1 LED_ON, Action.led_write 0 LED_ON, Action.sleep_for 200,
   Action.led_write 1 LED_OFF, Action.led_write 0 LED_OFF, Action.sleep_for 400]

/-- The loop of `blink_led` run `n` times. -/
def blink_led_loop : Nat → List Action
  | 0 => []
  | n + 1 => blink_cycle ++ blink_led_loop n

/-- The function `blink_led`; a count below one gives no pass at all. -/
def blink_led (aCount : Int) : List Action :=
  blink_led_loop aCount.toNat

/-! ## `do_connect` (lines 182-203) -/

/-- What one call of `do_connect` returns and does: the returned code, the
number of calls it made of `interface->connect()` and of
`interface->get_connection_status()`, and its trace. -/
structure ConnectResult where
  retcode : nsapi_error_t
  connect_calls : Nat
  status_queries : Nat
  trace : List Action
  deriving DecidableEq, Repr

/-- The `while` loop of `do_connect`, entered for the `n`-th time (counting
from zero) with the current values of the two locals.  `status k` is the
result of the `k`-th call of `get_connection_status()` and `conn k` the result
of the `k`-th call of `connect()`; every pass of the loop makes one call of
each, so `n` is also the number of `connect()` calls made so far.
`retry_counter` is a `uint8_t`, hence the reduction modulo 256. -/
def do_connect_loop (status : Nat → nsapi_connection_status_t) (conn : Nat → nsapi_error_t)
    (n : Nat) (retcode : nsapi_error_t) (retry_counter : Nat) : ConnectResult :=
  if status n ≠ nsapi_connection_status_t.NSAPI_STATUS_GLOBAL_UP then
    let retcode := conn n
    if retcode = nsapi_error_t.NSAPI_ERROR_AUTH_FAILURE then
      { retcode := retcode, connect_calls := n + 1, status_queries := n + 1,
        trace := [Action.get_connection_status, Action.connect,
          Action.log LogLevel.LOG_ERROR "Authentication Failure. Exiting application\n"] }
    else if retcode = nsapi_error_t.NSAPI_ERROR_OK then
      { retcode := retcode, connect_calls := n + 1, status_queries := n + 1,
        trace := [Action.get_connection_status, Action.connect,
          Action.log LogLevel.LOG_HI "Connection Established.\n"] }
    else if retry_counter > 3 then
      { retcode := retcode, connect_calls := n + 1, status_queries := n + 1,
        trace := [Action.get_connection_status, Action.connect,
          Action.log LogLevel.LOG_ERROR "Fatal connection failure: %d\n"] }
    else
      let r := do_connect_loop status conn (n + 1) retcode ((retry_counter + 1) % 256)
      { r with trace := [Action.get_connection_status, Action.connect,
          Action.log LogLevel.LOG_WARN "\n\nCouldn't connect: %d, will retry\n"] ++ r.trace }
  else
    { retcode := retcode, connect_calls := n, status_queries := n + 1,
      trace := [Action.get_connection_status] }
termination_by 4 - retry_counter
decreasing_by omega

/-- The function `do_connect`. -/
def do_connect (status : Nat → nsapi_connection_status_t) (conn : Nat → nsapi_error_t) :
    ConnectResult :=
  do_connect_loop status conn 0 nsapi_error_t.NSAPI_ERROR_OK 0

/-! ## `demo_loop` (lines 389-424 and 429-437) -/

/-- The locals of `demo_loop` that live across iterations.  (`signal` is
assigned afresh in every iteration before it is read.) -/
structure DemoLocals where
  i : Int
  success : Int
  fail : Int
  consecutiveFail : Int
  deriving DecidableEq, Repr

/-- The values the locals are initialised with at lines 391-396. -/
def demo_loop_entry : DemoLocals :=
  { i := 0, success := 0, fail := 0, consecutiveFail := 0 }

/-- The operator `++` on an `int`.  Signed overflow is undefined in C++; the
embedding takes the two's-complement wrap of the 32-bit target.  The
consecutive-failure counter never comes near the boundary. -/
def int_incr (x : Int) : Int :=
  if x = 2147483647 then -2147483648 else x + 1

/-- One iteration of the loop: the locals it starts with, the value
`send_dweet_signal` returned, the locals when the iteration ends (or when
the system is reset), and the trace of the iteration. -/
structure Iteration where
  start : DemoLocals
  ret : Int
  locals : DemoLocals
  trace : List Action
  deriving DecidableEq, Repr

/-- The body of the `while (true)` loop of lines 398-423, run with locals `s`
when `send_dweet_signal` returns `ret`. -/
def demo_loop_body (s : DemoLocals) (ret : Int) : Iteration :=
  let signal : Int := if Int.tmod s.i 2 ≠ 0 then s.i else 0
  let call := [Action.sleep_for 1000, Action.send_dweet_signal "Signal" signal]
  let report := [Action.log LogLevel.LOG_HI
    "[[[[ [[[ [[ [ %d Success / %d Failure ] ]] ]]] ]]]]"]
  if 0 ≠ ret then
    let fail := int_incr s.fail
    let consecutiveFail := int_incr s.consecutiveFail
    let failed := call ++ blink_led 4 ++ [Action.log LogLevel.LOG_WARN "DWEET signal failed"]
    if 3 ≤ consecutiveFail then
      { start := s, ret := ret,
        locals := { s with fail := fail, consecutiveFail := consecutiveFail },
        trace := andThen
          (andThen (failed ++ [Action.log LogLevel.LOG_ERROR "A lot of consecutive errors"])
            SYSTEM_RECOVERY)
          report }
    else
      { start := s, ret := ret,
        locals := { s with i := int_incr s.i, fail := fail, consecutiveFail := consecutiveFail },
        trace := failed ++ report }
  else
    { start := s, ret := ret,
      locals := { s with i := int_incr s.i, success := int_incr s.success, consecutiveFail := 0 },
      trace := call ++ blink_led 1 ++ report }

/-- The decision of one iteration. -/
def Iteration.decision (it : Iteration) : Decision :=
  RM6100.decision it.trace

/-- Modelled from the spec: what follows `NVIC_SystemReset()`, a routine of
the SDK that is not part of the repository.  The spec has the Escalate action
terminate and restart the entire process, the health state being created anew
at process start; the restarted program reaches `demo_loop()` again through
`main` (line 494), where the locals are initialised as at lines 391-396.  So
the iteration that comes after a reset belongs to a new invocation of
`demo_loop` and starts from `demo_loop_entry`; `demo_loop` itself assigns
nothing on that path.  After an iteration that does not reset, the next one
starts with the locals this one left. -/
def Iteration.next (it : Iteration) : DemoLocals :=
  if resets it.trace then demo_loop_entry else it.locals

/-- The loop of `demo_loop` (traffic variant) within one boot: the trace of
the iterations for the given results of `send_dweet_signal`, up to the first
system reset. -/
def demo_loop (s : DemoLocals) : List Int → List Action
  | [] => []
  | ret :: rest => andThen (demo_loop_body s ret).trace (demo_loop (demo_loop_body s ret).locals rest)

/-- The iterations of one invocation of `demo_loop` (traffic variant) for the
given results of `send_dweet_signal`: each starts with the locals the previous
one left, and none follows an iteration that resets the system. -/
def demo_loop_iterations (s : DemoLocals) : List Int → List Iteration
  | [] => []
  | ret :: rest =>
      if resets (demo_loop_body s ret).trace then [demo_loop_body s ret]
      else demo_loop_body s ret :: demo_loop_iterations (demo_loop_body s ret).locals rest

/-- The successive iterations of `demo_loop` for the given results of
`send_dweet_signal`, followed across system resets: after a reset the run
goes on with the iterations of the restarted program (`Iteration.next`). -/
def demo_loop_run (s : DemoLocals) : List Int → List Iteration
  | [] => []
  | ret :: rest => demo_loop_body s ret :: demo_loop_run (demo_loop_body s ret).next rest

/-- The decisions of the successive iterations from a fresh start. -/
def demo_loop_decisions (rets : List Int) : List Decision :=
  (demo_loop_run demo_loop_entry rets).map Iteration.decision

/-- The idle variant of `demo_loop` (lines 429-437), run for `n` iterations. -/
def demo_loop_idle : Nat → List Action
  | 0 => []
  | n + 1 =>
      [Action.sleep_for 2000, Action.log LogLevel.LOG_HI "Idle APP..."] ++ blink_led 2
        ++ demo_loop_idle n

/-! ## `main` (lines 446-500) -/

/-- The two values `MBED_APP_CONF_TEST_TYPE` may take for `main.cpp` to
compile (lines 43-44). -/
inductive TestType where
  | DEMO_NONE
  | DEMO_DWEET_SIGNAL
  deriving DecidableEq, Repr

/-- The build configuration `main.cpp` depends on. -/
structure BuildConfig where
  MBED_CONF_MBED_TRACE_ENABLE : Bool
  MBED_APP_CONF_TEST_TYPE : TestType
  MBED_CONF_NSAPI_DEFAULT_CELLULAR_PLMN : Bool
  deriving DecidableEq, Repr

/-- Lines 448-468 of `main`: everything before the network is touched. -/
def main_startup (cfg : BuildConfig) : List Action :=
  (if cfg.MBED_CONF_MBED_TRACE_ENABLE then [Action.trace_open] else []) ++
  [Action.log LogLevel.LOG_HI "RM6100 Demo\n",
   Action.log LogLevel.LOG_HI "Built: %s, %s\n",
   Action.sleep_for 100] ++
  blink_led 1 ++
  [Action.pin_write ModemPin.modem_chen 0,
   Action.pin_write ModemPin.modem_remap 0,
   Action.pin_write ModemPin.modem_reset 0,
   Action.sleep_for 100,
   Action.pin_write ModemPin.modem_reset 1] ++
  [Action.sleep_for 1000] ++
  blink_led 3

/-- The loop `while (do_connect() != NSAPI_ERROR_OK)` of lines 488-490,
followed for at most `attempts` calls of `do_connect`.  Returns the trace
and whether the loop has been left. -/
def connect_phase (status : Nat → nsapi_connection_status_t) (conn : Nat → nsapi_error_t) :
    Nat → List Action × Bool
  | 0 => ([], false)
  | attempts + 1 =>
      let r := do_connect status conn
      if r.retcode ≠ nsapi_error_t.NSAPI_ERROR_OK then
        let later := connect_phase (fun k => status (k + r.status_queries))
          (fun k => conn (k + r.connect_calls)) attempts
        (r.trace ++
          [Action.log LogLevel.LOG_WARN "Could not connect to cellular network .. try again\n"] ++
          later.1, later.2)
      else (r.trace, true)

/-- Lines 470-492 of `main`, compiled in when the test type is not
`DEMO_NONE`.  `found` tells whether `get_default_instance()` yields an
interface object; when it does not, `MBED_ASSERT(interface)` stops the
program.  Returns the trace and whether the connect loop has been left. -/
def main_network (cfg : BuildConfig) (found : Bool) (status : Nat → nsapi_connection_status_t)
    (conn : Nat → nsapi_error_t) (attempts : Nat) : List Action × Bool :=
  let phase := connect_phase status conn attempts
  let opening :=
    (if cfg.MBED_CONF_NSAPI_DEFAULT_CELLULAR_PLMN
      then [Action.log LogLevel.LOG_HI "[MAIN], plmn: %s\n"] else []) ++
    [Action.log LogLevel.LOG_HI "Establishing connection\n",
     Action.get_default_instance]
  if found then
    (opening ++ [Action.attach_status_callback, Action.set_default_parameters] ++ phase.1,
      phase.2)
  else (opening ++ [Action.assert_failure], false)

/-- The function `main` within one boot, observed for at most `attempts`
calls of `do_connect` and for the iterations of `demo_loop` that `rets`
(traffic variant) or `idle` (idle variant) provide.  `demo_loop` never
returns, so the lines after its call are never reached. -/
def main (cfg : BuildConfig) (found : Bool) (status : Nat → nsapi_connection_status_t)
    (conn : Nat → nsapi_error_t) (attempts : Nat) (rets : List Int) (idle : Nat) :
    List Action :=
  main_startup cfg ++
  match cfg.MBED_APP_CONF_TEST_TYPE with
  | TestType.DEMO_NONE => demo_loop_idle idle
  | TestType.DEMO_DWEET_SIGNAL =>
      let net := main_network cfg found status conn attempts
      net.1 ++ (if net.2 then demo_loop demo_loop_entry rets else [])

/-- The levels of the three modem control lines. -/
structure ModemPins where
  modem_chen : Int
  modem_remap : Int
  modem_reset : Int
  deriving DecidableEq, Repr

/-- The levels the three `DigitalOut` objects are constructed with
(lines 116-118). -/
def pins_at_construction : ModemPins :=
  { modem_chen := SGNL_INACTV, modem_remap := SGNL_INACTV, modem_reset := SGNL_INACTV }

/-- The effect of one action on the modem control lines. -/
def apply_action (p : ModemPins) : Action → ModemPins
  | Action.pin_write ModemPin.modem_chen v => { p with modem_chen := v }
  | Action.pin_write ModemPin.modem_remap v => { p with modem_remap := v }
  | Action.pin_write ModemPin.modem_reset v => { p with modem_reset := v }
  | _ => p

/-- The levels of the modem control lines after a trace. -/
def pins_after (p : ModemPins) (t : List Action) : ModemPins :=
  t.foldl apply_action p

/-! ## Observations on traces -/

/-- Whether an action is a modem command. -/
def Action.isAtCommand : Action → Bool
  | Action.at_cmd_discard _ _ => true
  | _ => false

/-- Whether an action writes one of the modem control lines. -/
def Action.isPinWrite : Action → Bool
  | Action.pin_write _ _ => true
  | _ => false

/-- Whether an action is part of a connection attempt: a call of the network
interface object. -/
def Action.isNetworkCall : Action → Bool
  | Action.get_default_instance => true
  | Action.attach_status_callback => true
  | Action.set_default_parameters => true
  | Action.get_connection_status => true
  | Action.connect => true
  | Action.send_dweet_signal _ _ => true
  | _ => false

/-- The modem commands of a trace, in order. -/
def at_commands (t : List Action) : List Action :=
  t.filter Action.isAtCommand

/-- The writes to the modem control lines in a trace, in order. -/
def pin_writes (t : List Action) : List Action :=
  t.filter Action.isPinWrite

/-- The error code an event carries.  Only a cellular event has one (the field
`error` of the record `param` points to); for a connection status change
`param` is the status value and the callback reads no error code. -/
def Event.error : Event → Option nsapi_error_t
  | .connection_status_change _ => none
  | .cellular _ cb_status => some cb_status.error

/-- The facts the proofs carry along the loop of `do_connect`: what a result
`r` of the loop, entered for the `n`-th time with `retcode` in hand, has to
satisfy with respect to the answers `status` and `conn` of the interface. -/
def ConnectLoopSpec (status : Nat → nsapi_connection_status_t) (conn : Nat → nsapi_error_t)
    (n : Nat) (retcode : nsapi_error_t) (r : ConnectResult) : Prop :=
  n ≤ r.connect_calls ∧
  r.connect_calls ≤ 5 ∧
  (r.connect_calls = n ↔ status n = .NSAPI_STATUS_GLOBAL_UP) ∧
  (r.connect_calls = n → r.retcode = retcode) ∧
  (∀ m, n ≤ m → r.connect_calls = m + 1 → r.retcode = conn m) ∧
  (∀ k, n ≤ k → k < r.connect_calls → status k ≠ .NSAPI_STATUS_GLOBAL_UP) ∧
  (∀ k, n ≤ k → k < r.connect_calls →
    (conn k = .NSAPI_ERROR_OK ∨ conn k = .NSAPI_ERROR_AUTH_FAILURE) →
    r.connect_calls = k + 1) ∧
  (∀ k, n ≤ k → k < r.connect_calls →
    conn k ≠ .NSAPI_ERROR_OK → conn k ≠ .NSAPI_ERROR_AUTH_FAILURE → k ≤ 3 →
    status (k + 1) ≠ .NSAPI_STATUS_GLOBAL_UP → k + 1 < r.connect_calls) ∧
  r.trace.count Action.connect + n = r.connect_calls ∧
  n + 1 ≤ r.status_queries ∧
  (r.connect_calls ≤ r.status_queries ∧ r.status_queries ≤ r.connect_calls + 1) ∧
  (∀ k, n ≤ k → k < r.connect_calls →
    (conn k = .NSAPI_ERROR_OK ∨ conn k = .NSAPI_ERROR_AUTH_FAILURE ∨ 3 < k) →
    r.status_queries = k + 1) ∧
  (∀ k, n ≤ k → k < r.connect_calls →
    conn k ≠ .NSAPI_ERROR_OK → conn k ≠ .NSAPI_ERROR_AUTH_FAILURE → k ≤ 3 →
    k + 2 ≤ r.status_queries) ∧
  r.trace.count Action.get_connection_status + n = r.status_queries ∧
  pin_writes r.trace = []

/-! ## Sequencing lemmas -/

theorem resets_nil : resets [] = false := by
  simp [resets]

theorem resets_cons (a : Action) (t : List Action) :
    resets (a :: t) = (decide (a = Action.NVIC_SystemReset) || resets t) := by
  simp only [resets, List.contains_cons]
  by_cases h : a = Action.NVIC_SystemReset
  · subst h; simp
  · have h2 : (Action.NVIC_SystemReset == a) = false := by
      simp only [beq_eq_false_iff_ne, ne_eq]
      exact fun h3 => h h3.symm
    simp [h, h2]

theorem resets_append (a b : List Action) : resets (a ++ b) = (resets a || resets b) := by
  induction a with
  | nil => simp [resets_nil]
  | cons x xs ih => simp [resets_cons, ih, Bool.or_assoc]

theorem resets_andThen (t k : List Action) : resets (andThen t k) = (resets t || resets k) := by
  unfold andThen
  by_cases h : resets t = true
  · simp [h]
  · simp [h, resets_append]

theorem resets_SYSTEM_RECOVERY : resets SYSTEM_RECOVERY = true := by
  decide

theorem resets_radio_configuration : resets radio_configuration = false := by
  simp [radio_configuration, resets_cons, resets_nil]

theorem resets_unrecoverable_error_check (cb : cell_callback_data_t) :
    resets (unrecoverable_error_check cb) = decide (cb.error ≠ nsapi_error_t.NSAPI_ERROR_OK) := by
  unfold unrecoverable_error_check
  by_cases h : cb.error = nsapi_error_t.NSAPI_ERROR_OK
  · simp [h, resets_nil]
  · have h2 : nsapi_error_t.NSAPI_ERROR_OK ≠ cb.error := fun h3 => h h3.symm
    simp [h, h2, resets_andThen, resets_SYSTEM_RECOVERY]

theorem at_commands_andThen (t k : List Action) (h : at_commands k = []) :
    at_commands (andThen t k) = at_commands t := by
  unfold andThen
  by_cases h2 : resets t = true
  · simp [h2]
  · unfold at_commands at h
    simp [h2, at_commands, List.filter_append, h]

theorem at_commands_SYSTEM_RECOVERY : at_commands SYSTEM_RECOVERY = [] := by
  decide

theorem at_commands_unrecoverable_error_check (cb : cell_callback_data_t) :
    at_commands (unrecoverable_error_check cb) = [] := by
  unfold unrecoverable_error_check
  split
  · rw [at_commands_andThen _ _ at_commands_SYSTEM_RECOVERY]
    simp [at_commands, Action.isAtCommand]
  · rfl

theorem at_commands_status_callback_cellular (status : cellular_connection_status_t)
    (cb : cell_callback_data_t) :
    at_commands (status_callback (Event.cellular status cb))
      = at_commands (cellular_status_switch status) := by
  simp only [status_callback]
  exact at_commands_andThen _ _ (at_commands_unrecoverable_error_check cb)

theorem decision_status_callback_cellular (status : cellular_connection_status_t)
    (cb : cell_callback_data_t) :
    decision (status_callback (Event.cellular status cb))
      = if resets (cellular_status_switch status) = true ∨
            cb.error ≠ nsapi_error_t.NSAPI_ERROR_OK
        then Decision.Escalate else Decision.Continue := by
  simp only [status_callback, decision, resets_andThen, resets_unrecoverable_error_check]
  by_cases h1 : resets (cellular_status_switch status) = true <;>
    by_cases h2 : cb.error = nsapi_error_t.NSAPI_ERROR_OK <;> simp [h1, h2]

theorem resets_cellular_status_switch (status : cellular_connection_status_t) :
    resets (cellular_status_switch status) = true ↔ ∃ raw, status = .unlisted raw := by
  cases status <;>
    simp [cellular_status_switch, resets_andThen, resets_cons, resets_nil,
      resets_SYSTEM_RECOVERY, resets_radio_configuration]

theorem at_commands_status_callback_connection (p : nsapi_connection_status_t) :
    at_commands (status_callback (Event.connection_status_change p)) = [] := by
  cases p with
  | NSAPI_STATUS_LOCAL_UP => decide
  | NSAPI_STATUS_GLOBAL_UP => decide
  | NSAPI_STATUS_CONNECTING => decide
  | NSAPI_STATUS_DISCONNECTED => decide
  | unlisted raw =>
      simp only [status_callback, connection_status_switch]
      rw [at_commands_andThen _ _ at_commands_SYSTEM_RECOVERY]
      rfl

theorem at_commands_cellular_status_switch (status : cellular_connection_status_t)
    (h : status ≠ .CellularDeviceReady) : at_commands (cellular_status_switch status) = [] := by
  cases status with
  | CellularDeviceReady => exact absurd rfl h
  | unlisted raw =>
      simp only [cellular_status_switch]
      rw [at_commands_andThen _ _ at_commands_SYSTEM_RECOVERY]
      rfl
  | _ => decide

/-! ## Theorems about `status_callback` -/

/-- C1: every event that carries an error code other than `NSAPI_ERROR_OK`
makes `status_callback` invoke `SYSTEM_RECOVERY()` (decision `Escalate`),
whatever the event code, the status payload and the final-try flag.  Only
cellular events carry an error code; a connection status change has none. -/
theorem status_callback_error_escalates (e : Event) (err : nsapi_error_t)
    (herr : e.error = some err) (hne : err ≠ nsapi_error_t.NSAPI_ERROR_OK) :
    decision (status_callback e) = Decision.Escalate := by
  cases e with
  | connection_status_change p => simp [Event.error] at herr
  | cellular status cb =>
      simp only [Event.error, Option.some.injEq] at herr
      subst herr
      rw [decision_status_callback_cellular]
      simp [hne]

/-- Instances of C1: `CellularRegistrationStatusChanged` and
`CellularDeviceTimeout`, each with a non-OK error code, escalate. -/
theorem status_callback_error_escalates_witness :
    decision (status_callback (Event.cellular .CellularRegistrationStatusChanged
        { error := .unlisted (-3001), status_data := 1, final_try := false }))
      = Decision.Escalate ∧
    decision (status_callback (Event.cellular .CellularDeviceTimeout
        { error := .NSAPI_ERROR_AUTH_FAILURE, status_data := 0, final_try := true }))
      = Decision.Escalate :=
  ⟨status_callback_error_escalates _ (.unlisted (-3001)) rfl (by decide),
   status_callback_error_escalates _ .NSAPI_ERROR_AUTH_FAILURE rfl (by decide)⟩

/-- C2: for a cellular event whose error code is `NSAPI_ERROR_OK`,
`status_callback` returns without `SYSTEM_RECOVERY()` exactly when the event
code is one of the eleven named codes; for every other code it escalates. -/
theorem status_callback_cellular_ok (status : cellular_connection_status_t)
    (cb : cell_callback_data_t) (hok : cb.error = nsapi_error_t.NSAPI_ERROR_OK) :
    (decision (status_callback (Event.cellular status cb)) = Decision.Continue ↔
      status ∈ [cellular_connection_status_t.CellularDeviceReady,
        .CellularSIMStatusChanged, .CellularRegistrationStatusChanged,
        .CellularRegistrationTypeChanged, .CellularCellIDChanged,
        .CellularRadioAccessTechnologyChanged, .CellularAttachNetwork,
        .CellularActivatePDPContext, .CellularSignalQuality,
        .CellularStateRetryEvent, .CellularDeviceTimeout]) ∧
    (status ∉ [cellular_connection_status_t.CellularDeviceReady,
        .CellularSIMStatusChanged, .CellularRegistrationStatusChanged,
        .CellularRegistrationTypeChanged, .CellularCellIDChanged,
        .CellularRadioAccessTechnologyChanged, .CellularAttachNetwork,
        .CellularActivatePDPContext, .CellularSignalQuality,
        .CellularStateRetryEvent, .CellularDeviceTimeout] →
      decision (status_callback (Event.cellular status cb)) = Decision.Escalate) := by
  rw [decision_status_callback_cellular]
  cases status <;>
    simp [hok, cellular_status_switch, resets_andThen, resets_cons, resets_nil,
      resets_SYSTEM_RECOVERY, resets_radio_configuration]

/-- Instances of C2: `CellularSignalQuality` without error continues, an
unlisted code without error escalates. -/
theorem status_callback_cellular_ok_witness :
    decision (status_callback (Event.cellular .CellularSignalQuality
        { error := .NSAPI_ERROR_OK, status_data := 17, final_try := false }))
      = Decision.Continue ∧
    decision (status_callback (Event.cellular (.unlisted 4107)
        { error := .NSAPI_ERROR_OK, status_data := 0, final_try := false }))
      = Decision.Escalate :=
  ⟨(status_callback_cellular_ok .CellularSignalQuality
      { error := .NSAPI_ERROR_OK, status_data := 17, final_try := false } rfl).1.mpr (by decide),
   (status_callback_cellular_ok (.unlisted 4107)
      { error := .NSAPI_ERROR_OK, status_data := 0, final_try := false } rfl).2 (by decide)⟩

/-- C3: for a connection status change with parameter `p`, `status_callback`
returns without `SYSTEM_RECOVERY()` exactly when `p` is `NSAPI_STATUS_LOCAL_UP`,
`NSAPI_STATUS_GLOBAL_UP` or `NSAPI_STATUS_CONNECTING`; it escalates for
`NSAPI_STATUS_DISCONNECTED` and for every value matching no case label. -/
theorem status_callback_connection_status (p : nsapi_connection_status_t) :
    (decision (status_callback (Event.connection_status_change p)) = Decision.Continue ↔
      p = .NSAPI_STATUS_LOCAL_UP ∨ p = .NSAPI_STATUS_GLOBAL_UP ∨ p = .NSAPI_STATUS_CONNECTING) ∧
    (decision (status_callback (Event.connection_status_change p)) = Decision.Escalate ↔
      p = .NSAPI_STATUS_DISCONNECTED ∨ ∃ raw, p = .unlisted raw) ∧
    decision (status_callback (Event.connection_status_change .NSAPI_STATUS_DISCONNECTED))
      = Decision.Escalate ∧
    (∀ raw : Int,
      decision (status_callback (Event.connection_status_change (.unlisted raw)))
        = Decision.Escalate) := by
  refine ⟨?_, ?_, by decide, ?_⟩
  · cases p <;>
      simp [status_callback, connection_status_switch, decision, resets_andThen, resets_cons,
        resets_nil, resets_SYSTEM_RECOVERY]
  · cases p <;>
      simp [status_callback, connection_status_switch, decision, resets_andThen, resets_cons,
        resets_nil, resets_SYSTEM_RECOVERY]
  · intro raw
    simp [status_callback, connection_status_switch, decision, resets_andThen, resets_cons,
      resets_nil, resets_SYSTEM_RECOVERY]

/-- C7: `status_callback` issues modem commands exactly for the cellular
event `CellularDeviceReady`, and then exactly `+CFUN=4`, `+BAND=5`, `+CFUN=1`,
`+EARFCN=2525` in this order; and the events DeviceReady, SIMStatusChanged
(both without error), Connecting, GlobalUp give four `Continue` decisions and
the four commands once. -/
theorem status_callback_radio_configuration :
    (∀ e : Event, at_commands (status_callback e) ≠ [] ↔
      ∃ cb, e = Event.cellular .CellularDeviceReady cb) ∧
    (∀ cb : cell_callback_data_t,
      at_commands (status_callback (Event.cellular .CellularDeviceReady cb))
        = [Action.at_cmd_discard "+CFUN" "=4", Action.at_cmd_discard "+BAND" "=5",
           Action.at_cmd_discard "+CFUN" "=1", Action.at_cmd_discard "+EARFCN" "=2525"]) ∧
    (∀ (d1 d2 : Int) (f1 f2 : Bool),
      ([Event.cellular .CellularDeviceReady
          { error := .NSAPI_ERROR_OK, status_data := d1, final_try := f1 },
        Event.cellular .CellularSIMStatusChanged
          { error := .NSAPI_ERROR_OK, status_data := d2, final_try := f2 },
        Event.connection_status_change .NSAPI_STATUS_CONNECTING,
        Event.connection_status_change .NSAPI_STATUS_GLOBAL_UP].map
          (fun e => decision (status_callback e))
        = [Decision.Continue, Decision.Continue, Decision.Continue, Decision.Continue]) ∧
      at_commands
        (status_callback (Event.cellular .CellularDeviceReady
            { error := .NSAPI_ERROR_OK, status_data := d1, final_try := f1 }) ++
         status_callback (Event.cellular .CellularSIMStatusChanged
            { error := .NSAPI_ERROR_OK, status_data := d2, final_try := f2 }) ++
         status_callback (Event.connection_status_change .NSAPI_STATUS_CONNECTING) ++
         status_callback (Event.connection_status_change .NSAPI_STATUS_GLOBAL_UP))
        = [Action.at_cmd_discard "+CFUN" "=4", Action.at_cmd_discard "+BAND" "=5",
           Action.at_cmd_discard "+CFUN" "=1", Action.at_cmd_discard "+EARFCN" "=2525"]) := by
  have hready : at_commands (cellular_status_switch .CellularDeviceReady)
      = [Action.at_cmd_discard "+CFUN" "=4", Action.at_cmd_discard "+BAND" "=5",
         Action.at_cmd_discard "+CFUN" "=1", Action.at_cmd_discard "+EARFCN" "=2525"] := by
    decide
  refine ⟨?_, ?_, ?_⟩
  · intro e
    cases e with
    | connection_status_change p =>
        rw [at_commands_status_callback_connection]
        simp
    | cellular status cb =>
        rw [at_commands_status_callback_cellular]
        cases status <;>
          simp [hready, at_commands_cellular_status_switch]
  · intro cb
    rw [at_commands_status_callback_cellular, hready]
  · intro d1 d2 f1 f2
    refine ⟨?_, ?_⟩
    · simp only [List.map, decision_status_callback_cellular]
      simp [cellular_status_switch, resets_andThen, resets_cons, resets_nil,
        resets_radio_configuration, status_callback, connection_status_switch, decision]
    · have happ : ∀ a b : List Action, at_commands (a ++ b) = at_commands a ++ at_commands b := by
        intro a b
        simp [at_commands, List.filter_append]
      rw [happ, happ, happ, at_commands_status_callback_cellular,
        at_commands_status_callback_cellular, at_commands_status_callback_connection,
        at_commands_status_callback_connection, hready,
        at_commands_cellular_status_switch _ (by decide)]
      rfl

/-! ## Lemmas about `demo_loop` -/

theorem resets_blink_led_loop (n : Nat) : resets (blink_led_loop n) = false := by
  induction n with
  | zero => rfl
  | succ n ih =>
      simp only [blink_led_loop, resets_append, ih, Bool.or_false]
      decide

theorem resets_blink_led (aCount : Int) : resets (blink_led aCount) = false :=
  resets_blink_led_loop _

theorem int_incr_small (x : Int) (h : x ≤ 2) : int_incr x = x + 1 := by
  unfold int_incr
  split
  · omega
  · rfl

theorem demo_loop_body_resets (s : DemoLocals) (ret : Int) :
    resets (demo_loop_body s ret).trace = true ↔ 0 ≠ ret ∧ 3 ≤ int_incr s.consecutiveFail := by
  unfold demo_loop_body
  by_cases h1 : (0 : Int) ≠ ret
  · by_cases h2 : 3 ≤ int_incr s.consecutiveFail
    · simp [h1, h2, resets_andThen, resets_append, resets_cons, resets_nil,
        resets_blink_led, resets_SYSTEM_RECOVERY]
    · simp [h1, h2, resets_append, resets_cons, resets_nil, resets_blink_led]
  · simp [h1, resets_append, resets_cons, resets_nil, resets_blink_led]

theorem demo_loop_body_start (s : DemoLocals) (ret : Int) :
    (demo_loop_body s ret).start = s ∧ (demo_loop_body s ret).ret = ret := by
  unfold demo_loop_body
  by_cases h1 : (0 : Int) ≠ ret
  · by_cases h2 : 3 ≤ int_incr s.consecutiveFail
    · simp [h1, h2]
    · simp [h1, h2]
  · simp [h1]

theorem demo_loop_body_counter (s : DemoLocals) (ret : Int) :
    (demo_loop_body s ret).locals.consecutiveFail
      = if 0 ≠ ret then int_incr s.consecutiveFail else 0 := by
  unfold demo_loop_body
  by_cases h1 : (0 : Int) ≠ ret
  · by_cases h2 : 3 ≤ int_incr s.consecutiveFail
    · simp [h1, h2]
    · simp [h1, h2]
  · simp [h1]

theorem demo_loop_body_decision (s : DemoLocals) (ret : Int) :
    (demo_loop_body s ret).decision = Decision.Escalate ↔
      0 ≠ ret ∧ 3 ≤ int_incr s.consecutiveFail := by
  rw [← demo_loop_body_resets]
  unfold Iteration.decision decision
  by_cases h : resets (demo_loop_body s ret).trace = true <;> simp [h]

theorem demo_loop_body_next (s : DemoLocals) (ret : Int) :
    (demo_loop_body s ret).next.consecutiveFail
      = if 0 ≠ ret ∧ 3 ≤ int_incr s.consecutiveFail then 0
        else (demo_loop_body s ret).locals.consecutiveFail := by
  unfold Iteration.next
  by_cases h : resets (demo_loop_body s ret).trace = true
  · have h2 := (demo_loop_body_resets s ret).mp h
    simp [h, h2, demo_loop_entry]
  · have h2 : ¬ (0 ≠ ret ∧ 3 ≤ int_incr s.consecutiveFail) :=
      fun h3 => h ((demo_loop_body_resets s ret).mpr h3)
    rw [if_neg h, if_neg h2]

theorem demo_loop_run_length (s : DemoLocals) (rets : List Int) :
    (demo_loop_run s rets).length = rets.length := by
  induction rets generalizing s with
  | nil => rfl
  | cons r rest ih => simp [demo_loop_run, ih]

theorem demo_loop_run_body (s : DemoLocals) (rets : List Int) (k : Nat) (it : Iteration)
    (h : (demo_loop_run s rets)[k]? = some it) :
    it = demo_loop_body it.start it.ret ∧ rets[k]? = some it.ret := by
  induction rets generalizing s k with
  | nil => simp [demo_loop_run] at h
  | cons r rest ih =>
      cases k with
      | zero =>
          simp only [demo_loop_run, List.getElem?_cons_zero, Option.some.injEq] at h
          subst h
          simp [demo_loop_body_start]
      | succ k =>
          simp only [demo_loop_run, List.getElem?_cons_succ] at h
          simpa using ih _ k h

theorem demo_loop_run_first (s : DemoLocals) (rets : List Int) (it : Iteration)
    (h : (demo_loop_run s rets)[0]? = some it) : it.start = s := by
  cases rets with
  | nil => simp [demo_loop_run] at h
  | cons r rest =>
      simp only [demo_loop_run, List.getElem?_cons_zero, Option.some.injEq] at h
      subst h
      exact (demo_loop_body_start s r).1

theorem demo_loop_run_chain (s : DemoLocals) (rets : List Int) (k : Nat) (it' : Iteration)
    (h : (demo_loop_run s rets)[k + 1]? = some it') :
    ∃ it, (demo_loop_run s rets)[k]? = some it ∧ it'.start = it.next := by
  induction rets generalizing s k with
  | nil => simp [demo_loop_run] at h
  | cons r rest ih =>
      simp only [demo_loop_run, List.getElem?_cons_succ] at h
      cases k with
      | zero =>
          exact ⟨demo_loop_body s r, by simp [demo_loop_run], demo_loop_run_first _ _ _ h⟩
      | succ k =>
          obtain ⟨it, h1, h2⟩ := ih _ k h
          exact ⟨it, by simpa [demo_loop_run] using h1, h2⟩

theorem demo_loop_body_next_bounds (s : DemoLocals) (ret : Int)
    (h : 0 ≤ s.consecutiveFail ∧ s.consecutiveFail ≤ 2) :
    0 ≤ (demo_loop_body s ret).next.consecutiveFail ∧
      (demo_loop_body s ret).next.consecutiveFail ≤ 2 := by
  rw [demo_loop_body_next, demo_loop_body_counter, int_incr_small _ h.2]
  split_ifs <;> omega

theorem demo_loop_run_start_bounds (s : DemoLocals) (rets : List Int) (k : Nat) (it : Iteration)
    (hs : 0 ≤ s.consecutiveFail ∧ s.consecutiveFail ≤ 2)
    (h : (demo_loop_run s rets)[k]? = some it) :
    0 ≤ it.start.consecutiveFail ∧ it.start.consecutiveFail ≤ 2 := by
  induction rets generalizing s k with
  | nil => simp [demo_loop_run] at h
  | cons r rest ih =>
      cases k with
      | zero =>
          rw [demo_loop_run_first _ _ _ h]
          exact hs
      | succ k =>
          simp only [demo_loop_run, List.getElem?_cons_succ] at h
          exact ih _ k (demo_loop_body_next_bounds s r hs) h

theorem decision_cases (it : Iteration) :
    it.decision = Decision.Continue ↔ ¬ it.decision = Decision.Escalate := by
  cases h : it.decision <;> simp

theorem demo_loop_body_fail (s : DemoLocals) (ret : Int) (hret : 0 ≠ ret)
    (hs : 0 ≤ s.consecutiveFail ∧ s.consecutiveFail ≤ 2) :
    ((demo_loop_body s ret).decision = Decision.Escalate ↔ s.consecutiveFail = 2) ∧
    (demo_loop_body s ret).locals.consecutiveFail = s.consecutiveFail + 1 ∧
    (demo_loop_body s ret).next.consecutiveFail
      = if s.consecutiveFail = 2 then 0 else s.consecutiveFail + 1 := by
  rw [demo_loop_body_decision, demo_loop_body_next, demo_loop_body_counter,
    int_incr_small _ hs.2]
  refine ⟨?_, ?_, ?_⟩
  · constructor
    · intro h; omega
    · intro h; exact ⟨hret, by omega⟩
  · simp [hret]
  · split_ifs <;> omega

theorem demo_loop_body_ok (s : DemoLocals) :
    (demo_loop_body s 0).decision = Decision.Continue ∧
    (demo_loop_body s 0).next.consecutiveFail = 0 := by
  refine ⟨(decision_cases _).mpr ?_, ?_⟩
  · rw [demo_loop_body_decision]; simp
  · rw [demo_loop_body_next, demo_loop_body_counter]; simp

theorem demo_loop_run_step (rets : List Int) (k : Nat) (it : Iteration)
    (h : (demo_loop_run demo_loop_entry rets)[k]? = some it) :
    (0 ≤ it.start.consecutiveFail ∧ it.start.consecutiveFail ≤ 2) ∧
    rets[k]? = some it.ret ∧
    (it.decision = Decision.Escalate ↔ 0 ≠ it.ret ∧ it.start.consecutiveFail = 2) ∧
    it.locals.consecutiveFail = (if 0 ≠ it.ret then it.start.consecutiveFail + 1 else 0) ∧
    it.next.consecutiveFail
      = (if 0 ≠ it.ret then (if it.start.consecutiveFail = 2 then 0
          else it.start.consecutiveFail + 1) else 0) := by
  have hb := demo_loop_run_start_bounds demo_loop_entry rets k it
    (by simp [demo_loop_entry]) h
  obtain ⟨hbody, hret⟩ := demo_loop_run_body _ _ _ _ h
  refine ⟨hb, hret, ?_, ?_, ?_⟩
  · rw [hbody, demo_loop_body_decision, int_incr_small _ hb.2]
    simp only [(demo_loop_body_start it.start it.ret).1, (demo_loop_body_start it.start it.ret).2]
    constructor
    · intro h2; exact ⟨h2.1, by omega⟩
    · intro h2; exact ⟨h2.1, by omega⟩
  · rw [hbody, demo_loop_body_counter, int_incr_small _ hb.2]
    simp only [(demo_loop_body_start it.start it.ret).1, (demo_loop_body_start it.start it.ret).2]
  · rw [hbody, demo_loop_body_next, demo_loop_body_counter, int_incr_small _ hb.2]
    simp only [(demo_loop_body_start it.start it.ret).1, (demo_loop_body_start it.start it.ret).2]
    split_ifs <;> omega

theorem demo_loop_run_get (s : DemoLocals) (rets : List Int) (k : Nat) (hk : k < rets.length) :
    ∃ it, (demo_loop_run s rets)[k]? = some it := by
  have hk2 : k < (demo_loop_run s rets).length := by
    rw [demo_loop_run_length]; exact hk
  exact ⟨(demo_loop_run s rets)[k], List.getElem?_eq_getElem hk2⟩

theorem demo_loop_decisions_get (rets : List Int) (k : Nat) (it : Iteration)
    (h : (demo_loop_run demo_loop_entry rets)[k]? = some it) :
    (demo_loop_decisions rets)[k]? = some it.decision := by
  simp [demo_loop_decisions, List.getElem?_map, h]

theorem demo_loop_body_fail_locals (s : DemoLocals) (ret : Int) (hret : 0 ≠ ret)
    (hs : 0 ≤ s.consecutiveFail ∧ s.consecutiveFail ≤ 2) :
    (resets (demo_loop_body s ret).trace = true ↔ s.consecutiveFail = 2) ∧
    ((demo_loop_body s ret).decision = Decision.Escalate ↔ s.consecutiveFail = 2) ∧
    (demo_loop_body s ret).locals.consecutiveFail = s.consecutiveFail + 1 := by
  rw [demo_loop_body_decision, demo_loop_body_resets, demo_loop_body_counter,
    int_incr_small _ hs.2]
  refine ⟨?_, ?_, ?_⟩
  · constructor
    · intro h; omega
    · intro h; exact ⟨hret, by omega⟩
  · constructor
    · intro h; omega
    · intro h; exact ⟨hret, by omega⟩
  · simp [hret]

theorem demo_loop_body_locals_bounds (s : DemoLocals) (ret : Int)
    (hs : 0 ≤ s.consecutiveFail ∧ s.consecutiveFail ≤ 2)
    (hno : ¬ resets (demo_loop_body s ret).trace = true) :
    0 ≤ (demo_loop_body s ret).locals.consecutiveFail ∧
      (demo_loop_body s ret).locals.consecutiveFail ≤ 2 := by
  rw [demo_loop_body_resets, int_incr_small _ hs.2] at hno
  rw [demo_loop_body_counter, int_incr_small _ hs.2]
  by_cases h0 : (0 : Int) ≠ ret
  · rw [if_pos h0]
    have : ¬ 3 ≤ s.consecutiveFail + 1 := fun h3 => hno ⟨h0, h3⟩
    omega
  · rw [if_neg h0]
    omega

theorem demo_loop_iterations_body (s : DemoLocals) (rets : List Int) (k : Nat) (it : Iteration)
    (h : (demo_loop_iterations s rets)[k]? = some it) :
    it = demo_loop_body it.start it.ret ∧ rets[k]? = some it.ret := by
  induction rets generalizing s k with
  | nil => simp [demo_loop_iterations] at h
  | cons r rest ih =>
      rw [demo_loop_iterations] at h
      by_cases hr : resets (demo_loop_body s r).trace = true
      · rw [if_pos hr] at h
        cases k with
        | zero =>
            simp only [List.getElem?_cons_zero, Option.some.injEq] at h
            subst h
            simp [demo_loop_body_start]
        | succ k => simp at h
      · rw [if_neg hr] at h
        cases k with
        | zero =>
            simp only [List.getElem?_cons_zero, Option.some.injEq] at h
            subst h
            simp [demo_loop_body_start]
        | succ k =>
            simp only [List.getElem?_cons_succ] at h
            simpa using ih _ k h

theorem demo_loop_iterations_first (s : DemoLocals) (rets : List Int) (it : Iteration)
    (h : (demo_loop_iterations s rets)[0]? = some it) : it.start = s := by
  cases rets with
  | nil => simp [demo_loop_iterations] at h
  | cons r rest =>
      rw [demo_loop_iterations] at h
      by_cases hr : resets (demo_loop_body s r).trace = true
      · rw [if_pos hr] at h
        simp only [List.getElem?_cons_zero, Option.some.injEq] at h
        subst h
        exact (demo_loop_body_start s r).1
      · rw [if_neg hr] at h
        simp only [List.getElem?_cons_zero, Option.some.injEq] at h
        subst h
        exact (demo_loop_body_start s r).1

theorem demo_loop_iterations_chain (s : DemoLocals) (rets : List Int) (k : Nat)
    (nxt : Iteration) (h : (demo_loop_iterations s rets)[k + 1]? = some nxt) :
    ∃ it, (demo_loop_iterations s rets)[k]? = some it ∧ nxt.start = it.locals ∧
      resets it.trace = false := by
  induction rets generalizing s k with
  | nil => simp [demo_loop_iterations] at h
  | cons r rest ih =>
      rw [demo_loop_iterations] at h ⊢
      by_cases hr : resets (demo_loop_body s r).trace = true
      · rw [if_pos hr] at h
        simp at h
      · rw [if_neg hr] at h ⊢
        simp only [List.getElem?_cons_succ] at h
        cases k with
        | zero =>
            exact ⟨demo_loop_body s r, by simp, demo_loop_iterations_first _ _ _ h,
              by simpa using hr⟩
        | succ k =>
            obtain ⟨it, h1, h2, h3⟩ := ih _ k h
            exact ⟨it, by simpa using h1, h2, h3⟩

theorem demo_loop_iterations_start_bounds (s : DemoLocals) (rets : List Int) (k : Nat)
    (it : Iteration) (hs : 0 ≤ s.consecutiveFail ∧ s.consecutiveFail ≤ 2)
    (h : (demo_loop_iterations s rets)[k]? = some it) :
    0 ≤ it.start.consecutiveFail ∧ it.start.consecutiveFail ≤ 2 := by
  induction rets generalizing s k with
  | nil => simp [demo_loop_iterations] at h
  | cons r rest ih =>
      cases k with
      | zero =>
          rw [demo_loop_iterations_first _ _ _ h]
          exact hs
      | succ k =>
          rw [demo_loop_iterations] at h
          by_cases hr : resets (demo_loop_body s r).trace = true
          · rw [if_pos hr] at h
            simp at h
          · rw [if_neg hr] at h
            simp only [List.getElem?_cons_succ] at h
            exact ih _ k (demo_loop_body_locals_bounds s r hs hr) h

theorem resets_iff_escalate (it : Iteration) :
    resets it.trace = true ↔ it.decision = Decision.Escalate := by
  unfold Iteration.decision decision
  by_cases h : resets it.trace = true <;> simp [h]

/-! ## Theorems about `demo_loop` -/

/-- C4, as stated, fails: after three failures from a fresh start the third
iteration decides Escalate and the counter it leaves is 3, not 0. -/
theorem demo_loop_counter_after_escalate_counterexample :
    ((demo_loop_iterations demo_loop_entry [-1, -1, -1])[2]?).map Iteration.decision
      = some Decision.Escalate ∧
    ((demo_loop_iterations demo_loop_entry [-1, -1, -1])[2]?).map
        (fun it => it.locals.consecutiveFail) = some 3 ∧
    ((demo_loop_iterations demo_loop_entry [-1, -1, -1])[2]?).map
        (fun it => it.locals.consecutiveFail) ≠ some 0 := by
  decide

/-- C4, amended: from a consecutive-failure counter of 0, three failed
`send_dweet_signal` calls in a row give the decisions Continue, Continue,
Escalate; the iterations start with the counter at 0, 1, 2 and leave it at 1,
2, 3; and whatever results would follow, this invocation of `demo_loop` runs
no fourth iteration, so the counter stays at 3 and is not set to 0. -/
theorem demo_loop_three_failures (s : DemoLocals) (r1 r2 r3 : Int) (rest : List Int)
    (hs : s.consecutiveFail = 0) (h1 : 0 ≠ r1) (h2 : 0 ≠ r2) (h3 : 0 ≠ r3) :
    (demo_loop_iterations s (r1 :: r2 :: r3 :: rest)).map Iteration.decision
      = [Decision.Continue, Decision.Continue, Decision.Escalate] ∧
    (demo_loop_iterations s (r1 :: r2 :: r3 :: rest)).map
        (fun it => it.start.consecutiveFail) = [0, 1, 2] ∧
    (demo_loop_iterations s (r1 :: r2 :: r3 :: rest)).map
        (fun it => it.locals.consecutiveFail) = [1, 2, 3] := by
  obtain ⟨a1, d1, b1⟩ := demo_loop_body_fail_locals s r1 h1 (by omega)
  rw [hs] at a1 d1 b1
  norm_num at a1 d1 b1
  obtain ⟨a2, d2, b2⟩ := demo_loop_body_fail_locals (demo_loop_body s r1).locals r2 h2 (by omega)
  rw [b1] at a2 d2 b2
  norm_num at a2 d2 b2
  obtain ⟨a3, d3, b3⟩ :=
    demo_loop_body_fail_locals (demo_loop_body (demo_loop_body s r1).locals r2).locals r3 h3
      (by omega)
  rw [b2] at a3 d3 b3
  norm_num at a3 d3 b3
  have e1 : demo_loop_iterations s (r1 :: r2 :: r3 :: rest)
      = [demo_loop_body s r1, demo_loop_body (demo_loop_body s r1).locals r2,
         demo_loop_body (demo_loop_body (demo_loop_body s r1).locals r2).locals r3] := by
    rw [demo_loop_iterations, if_neg (by simpa using a1), demo_loop_iterations,
      if_neg (by simpa using a2), demo_loop_iterations, if_pos a3]
  rw [e1]
  simp only [List.map, (demo_loop_body_start _ _).1]
  rw [b1, b2, b3, d3, (decision_cases _).mpr d1, (decision_cases _).mpr d2, hs]
  exact ⟨rfl, rfl, rfl⟩

/-- Instance of C4: from the entry state of `demo_loop`, three calls that
return -1, followed by a call that would succeed. -/
theorem demo_loop_three_failures_witness :
    (demo_loop_iterations demo_loop_entry [-1, -1, -1, 0]).map Iteration.decision
      = [Decision.Continue, Decision.Continue, Decision.Escalate] ∧
    (demo_loop_iterations demo_loop_entry [-1, -1, -1, 0]).map
        (fun it => it.start.consecutiveFail) = [0, 1, 2] ∧
    (demo_loop_iterations demo_loop_entry [-1, -1, -1, 0]).map
        (fun it => it.locals.consecutiveFail) = [1, 2, 3] :=
  demo_loop_three_failures demo_loop_entry (-1) (-1) (-1) [0] rfl (by decide) (by decide)
    (by decide)

/-- C5: whatever the locals of `demo_loop` hold, an iteration in which
`send_dweet_signal` returns 0 sets the consecutive-failure counter to 0 and
does not invoke `SYSTEM_RECOVERY()`. -/
theorem demo_loop_success_resets_counter (s : DemoLocals) :
    (demo_loop_body s 0).locals.consecutiveFail = 0 ∧
    (demo_loop_body s 0).decision = Decision.Continue ∧
    (demo_loop_body s 0).next.consecutiveFail = 0 := by
  have hd : ¬ (demo_loop_body s 0).decision = Decision.Escalate := by
    rw [demo_loop_body_decision]
    simp
  refine ⟨?_, (decision_cases _).mpr hd, ?_⟩
  · rw [demo_loop_body_counter]; simp
  · rw [demo_loop_body_next, demo_loop_body_counter]; simp

/-- C6: a failure, a success and two more failures give no Escalate; and in
every run of `demo_loop` from a fresh start, the iteration with index `k`
escalates exactly when it and the two iterations before it are failures and
neither of those two escalated. -/
theorem demo_loop_escalates_iff_three_failures :
    (∀ r1 r3 r4 : Int, 0 ≠ r1 → 0 ≠ r3 → 0 ≠ r4 →
      demo_loop_decisions [r1, 0, r3, r4]
        = [Decision.Continue, Decision.Continue, Decision.Continue, Decision.Continue]) ∧
    (∀ (rets : List Int) (k : Nat), k < rets.length →
      ((demo_loop_decisions rets)[k]? = some Decision.Escalate ↔
        2 ≤ k ∧ rets[k]? ≠ some 0 ∧ rets[k - 1]? ≠ some 0 ∧ rets[k - 2]? ≠ some 0 ∧
        (demo_loop_decisions rets)[k - 1]? ≠ some Decision.Escalate ∧
        (demo_loop_decisions rets)[k - 2]? ≠ some Decision.Escalate)) := by
  have general : ∀ (rets : List Int) (k : Nat), k < rets.length →
      ((demo_loop_decisions rets)[k]? = some Decision.Escalate ↔
        2 ≤ k ∧ rets[k]? ≠ some 0 ∧ rets[k - 1]? ≠ some 0 ∧ rets[k - 2]? ≠ some 0 ∧
        (demo_loop_decisions rets)[k - 1]? ≠ some Decision.Escalate ∧
        (demo_loop_decisions rets)[k - 2]? ≠ some Decision.Escalate) := by
    intro rets k hk
    obtain ⟨it, hit⟩ := demo_loop_run_get demo_loop_entry rets k hk
    obtain ⟨hb, hr, hd, -, -⟩ := demo_loop_run_step rets k it hit
    rw [demo_loop_decisions_get rets k it hit, hr]
    simp only [Option.some.injEq, ne_eq]
    rw [hd]
    match k, hit with
    | 0, hit =>
        have h0 := demo_loop_run_first _ _ _ hit
        have : it.start.consecutiveFail = 0 := by rw [h0]; rfl
        constructor
        · intro h; omega
        · intro h; omega
    | 1, hit =>
        obtain ⟨it0, hit0, hch0⟩ := demo_loop_run_chain _ _ 0 it hit
        obtain ⟨-, -, -, -, hn0⟩ := demo_loop_run_step rets 0 it0 hit0
        have h0 := demo_loop_run_first _ _ _ hit0
        have hs0 : it0.start.consecutiveFail = 0 := by rw [h0]; rfl
        rw [hs0, ← hch0] at hn0
        constructor
        · intro h
          exfalso
          split_ifs at hn0 <;> omega
        · intro h; omega
    | k + 2, hit =>
        obtain ⟨it1, hit1, hch1⟩ := demo_loop_run_chain _ _ (k + 1) it hit
        obtain ⟨it0, hit0, hch0⟩ := demo_loop_run_chain _ _ k it1 hit1
        obtain ⟨hb1, hr1, hd1, -, hn1⟩ := demo_loop_run_step rets (k + 1) it1 hit1
        obtain ⟨hb0, hr0, hd0, -, hn0⟩ := demo_loop_run_step rets k it0 hit0
        have e1 : k + 2 - 1 = k + 1 := by omega
        have e0 : k + 2 - 2 = k := by omega
        rw [e1, e0, demo_loop_decisions_get rets (k + 1) it1 hit1,
          demo_loop_decisions_get rets k it0 hit0, hr1, hr0]
        simp only [Option.some.injEq]
        rw [hd1, hd0]
        rw [← hch1] at hn1
        rw [← hch0] at hn0
        constructor
        · intro h
          have hit1ret : 0 ≠ it1.ret := by
            intro hz
            rw [if_neg (by simpa using hz)] at hn1
            omega
          have hit0ret : 0 ≠ it0.ret := by
            intro hz
            rw [if_neg (by simpa using hz)] at hn0
            rw [if_pos hit1ret] at hn1
            split_ifs at hn1 <;> omega
          rw [if_pos hit1ret] at hn1
          rw [if_pos hit0ret] at hn0
          refine ⟨by omega, fun hz => h.1 hz.symm, fun hz => hit1ret hz.symm,
            fun hz => hit0ret hz.symm, ?_, ?_⟩
          · intro h2
            rw [if_pos h2.2] at hn1
            omega
          · intro h2
            rw [if_pos h2.2] at hn0
            split_ifs at hn1 <;> omega
        · rintro ⟨-, hr2, hr1', hr0', hne1, hne0⟩
          have hit1ret : 0 ≠ it1.ret := fun hz => hr1' hz.symm
          have hit0ret : 0 ≠ it0.ret := fun hz => hr0' hz.symm
          have hc1 : ¬ it1.start.consecutiveFail = 2 := fun hz => hne1 ⟨hit1ret, hz⟩
          have hc0 : ¬ it0.start.consecutiveFail = 2 := fun hz => hne0 ⟨hit0ret, hz⟩
          rw [if_pos hit1ret, if_neg hc1] at hn1
          rw [if_pos hit0ret, if_neg hc0] at hn0
          exact ⟨fun hz => hr2 hz.symm, by omega⟩
  refine ⟨?_, general⟩
  intro r1 r3 r4 h1 h3 h4
  obtain ⟨a1, -, c1⟩ := demo_loop_body_fail demo_loop_entry r1 h1 (by simp [demo_loop_entry])
  have e0 : demo_loop_entry.consecutiveFail = 0 := rfl
  rw [e0] at a1 c1
  norm_num at a1 c1
  obtain ⟨a2, c2⟩ := demo_loop_body_ok (demo_loop_body demo_loop_entry r1).next
  obtain ⟨a3, -, c3⟩ := demo_loop_body_fail
    (demo_loop_body (demo_loop_body demo_loop_entry r1).next 0).next r3 h3 (by omega)
  rw [c2] at a3 c3
  norm_num at a3 c3
  obtain ⟨a4, -, -⟩ := demo_loop_body_fail
    (demo_loop_body (demo_loop_body (demo_loop_body demo_loop_entry r1).next 0).next r3).next
    r4 h4 (by omega)
  rw [c3] at a4
  norm_num at a4
  simp only [demo_loop_decisions, demo_loop_run, List.map]
  rw [(decision_cases _).mpr a1, a2, (decision_cases _).mpr a3, (decision_cases _).mpr a4]

/-- Instances of C6: failure, success, failure, failure never escalates, and
in three failures the iteration with index 2 escalates. -/
theorem demo_loop_escalates_iff_three_failures_witness :
    demo_loop_decisions [-1, 0, -1, -1]
      = [Decision.Continue, Decision.Continue, Decision.Continue, Decision.Continue] ∧
    (demo_loop_decisions [-1, -1, -1])[2]? = some Decision.Escalate :=
  ⟨demo_loop_escalates_iff_three_failures.1 (-1) (-1) (-1) (by decide) (by decide) (by decide),
   (demo_loop_escalates_iff_three_failures.2 [-1, -1, -1] 2 (by decide)).mpr
     ⟨by decide, by decide, by decide, by decide, by decide, by decide⟩⟩

/-- C8, as stated, fails: the iteration that decides Escalate changes the
counter by +1 (from 2 to 3) and does not set it to 0. -/
theorem demo_loop_escalate_keeps_counter_counterexample :
    (demo_loop_body { i := 2, success := 0, fail := 2, consecutiveFail := 2 } (-1)).decision
      = Decision.Escalate ∧
    (demo_loop_body { i := 2, success := 0, fail := 2, consecutiveFail := 2 }
        (-1)).locals.consecutiveFail = 3 ∧
    (demo_loop_body { i := 2, success := 0, fail := 2, consecutiveFail := 2 }
        (-1)).locals.consecutiveFail ≠ 0 := by
  decide

/-- C8, amended: in every invocation of `demo_loop` from a fresh start and for
every sequence of results, every iteration starts with the consecutive-failure
counter between 0 and 2 (0 for the first one, the value the previous iteration
left otherwise); a failure adds one to it and a success sets it to 0, and
nothing else changes it; it is between 0 and 3 when the iteration decides, and
3 exactly when the decision is Escalate, after which no iteration follows. -/
theorem demo_loop_counter_invariant (rets : List Int) (k : Nat) (it : Iteration)
    (h : (demo_loop_iterations demo_loop_entry rets)[k]? = some it) :
    rets[k]? = some it.ret ∧
    (0 ≤ it.start.consecutiveFail ∧ it.start.consecutiveFail ≤ 2) ∧
    (k = 0 → it.start.consecutiveFail = 0) ∧
    (0 ≠ it.ret → it.locals.consecutiveFail = it.start.consecutiveFail + 1) ∧
    (it.ret = 0 → it.locals.consecutiveFail = 0) ∧
    (0 ≤ it.locals.consecutiveFail ∧ it.locals.consecutiveFail ≤ 3) ∧
    (it.decision = Decision.Escalate ↔ it.locals.consecutiveFail = 3) ∧
    (it.decision = Decision.Escalate →
      (demo_loop_iterations demo_loop_entry rets)[k + 1]? = none) ∧
    (∀ nxt, (demo_loop_iterations demo_loop_entry rets)[k + 1]? = some nxt →
      it.decision = Decision.Continue ∧ nxt.start = it.locals) := by
  have hb := demo_loop_iterations_start_bounds demo_loop_entry rets k it
    (by simp [demo_loop_entry]) h
  obtain ⟨hbody, hret⟩ := demo_loop_iterations_body _ _ _ _ h
  have hl : it.locals.consecutiveFail
      = if 0 ≠ it.ret then it.start.consecutiveFail + 1 else 0 := by
    rw [hbody, demo_loop_body_counter, int_incr_small _ hb.2]
    simp only [(demo_loop_body_start it.start it.ret).1, (demo_loop_body_start it.start it.ret).2]
  have hd : it.decision = Decision.Escalate ↔ 0 ≠ it.ret ∧ it.start.consecutiveFail = 2 := by
    rw [hbody, demo_loop_body_decision, int_incr_small _ hb.2]
    simp only [(demo_loop_body_start it.start it.ret).1, (demo_loop_body_start it.start it.ret).2]
    constructor
    · intro h2; exact ⟨h2.1, by omega⟩
    · intro h2; exact ⟨h2.1, by omega⟩
  have hchain : ∀ nxt, (demo_loop_iterations demo_loop_entry rets)[k + 1]? = some nxt →
      it.decision = Decision.Continue ∧ nxt.start = it.locals := by
    intro nxt hnxt
    obtain ⟨it2, hit2, hch, hno⟩ := demo_loop_iterations_chain _ _ k nxt hnxt
    rw [h] at hit2
    cases hit2
    refine ⟨(decision_cases _).mpr ?_, hch⟩
    intro hE
    rw [(resets_iff_escalate it).mpr hE] at hno
    exact absurd hno (by decide)
  refine ⟨hret, hb, ?_, ?_, ?_, ?_, ?_, ?_, hchain⟩
  · intro hk
    subst hk
    rw [demo_loop_iterations_first _ _ _ h]
    rfl
  · intro h0
    rw [hl, if_pos h0]
  · intro h0
    rw [hl, if_neg (by simp [h0])]
  · rw [hl]
    split_ifs <;> omega
  · rw [hd, hl]
    constructor
    · rintro ⟨h0, h2⟩
      rw [if_pos h0, h2]
      rfl
    · intro h3
      split_ifs at h3 with h0
      · exact ⟨h0, by omega⟩
      · omega
  · intro hE
    cases hnone : (demo_loop_iterations demo_loop_entry rets)[k + 1]? with
    | none => rfl
    | some nxt =>
        have hC := (hchain nxt hnone).1
        rw [hE] at hC
        exact absurd hC (by decide)

/-- Instance of C8: the third of three failures, which escalates with the
counter at 3 and ends the run although a further result is at hand. -/
theorem demo_loop_counter_invariant_witness :
    (demo_loop_iterations demo_loop_entry [-1, -1, -1, 0])[2]?
      = some (demo_loop_body { i := 2, success := 0, fail := 2, consecutiveFail := 2 } (-1)) ∧
    (demo_loop_body { i := 2, success := 0, fail := 2, consecutiveFail := 2 }
        (-1)).locals.consecutiveFail = 3 ∧
    (demo_loop_iterations demo_loop_entry [-1, -1, -1, 0])[2 + 1]? = none :=
  ⟨by decide,
   (demo_loop_counter_invariant [-1, -1, -1, 0] 2
      (demo_loop_body { i := 2, success := 0, fail := 2, consecutiveFail := 2 } (-1))
      (by decide)).2.2.2.2.2.2.1.mp (by decide),
   (demo_loop_counter_invariant [-1, -1, -1, 0] 2
      (demo_loop_body { i := 2, success := 0, fail := 2, consecutiveFail := 2 } (-1))
      (by decide)).2.2.2.2.2.2.2.1 (by decide)⟩

/-! ## Lemmas about `do_connect` -/

theorem connectLoopSpec_exit (status : Nat → nsapi_connection_status_t)
    (conn : Nat → nsapi_error_t) (n : Nat) (hn : n ≤ 5) (retcode : nsapi_error_t)
    (r : ConnectResult) (hs : status n = .NSAPI_STATUS_GLOBAL_UP)
    (hc : r.connect_calls = n) (hr : r.retcode = retcode)
    (hq : r.status_queries = n + 1)
    (ht : r.trace.count Action.connect = 0)
    (hqt : r.trace.count Action.get_connection_status = 1)
    (hp : pin_writes r.trace = []) :
    ConnectLoopSpec status conn n retcode r := by
  unfold ConnectLoopSpec
  rw [hc, hr, ht, hq, hqt]
  refine ⟨le_refl _, hn, by simp [hs], fun _ => rfl, ?_, ?_, ?_, ?_, by omega, by omega,
    by omega, ?_, ?_, by omega, hp⟩
  · intro m h1 h2; omega
  · intro k h1 h2; omega
  · intro k h1 h2; omega
  · intro k h1 h2; omega
  · intro k h1 h2; omega
  · intro k h1 h2; omega

theorem connectLoopSpec_stop (status : Nat → nsapi_connection_status_t)
    (conn : Nat → nsapi_error_t) (n : Nat) (hn : n ≤ 4) (retcode : nsapi_error_t)
    (r : ConnectResult) (hs : status n ≠ .NSAPI_STATUS_GLOBAL_UP)
    (hstop : conn n = .NSAPI_ERROR_OK ∨ conn n = .NSAPI_ERROR_AUTH_FAILURE ∨ 3 < n)
    (hc : r.connect_calls = n + 1) (hr : r.retcode = conn n)
    (hq : r.status_queries = n + 1)
    (ht : r.trace.count Action.connect = 1)
    (hqt : r.trace.count Action.get_connection_status = 1)
    (hp : pin_writes r.trace = []) :
    ConnectLoopSpec status conn n retcode r := by
  unfold ConnectLoopSpec
  rw [hc, hr, ht, hq, hqt]
  refine ⟨by omega, by omega, ?_, ?_, ?_, ?_, ?_, ?_, by omega, by omega, by omega, ?_, ?_,
    by omega, hp⟩
  · constructor
    · intro h; omega
    · intro h; exact absurd h hs
  · intro h; omega
  · intro m h1 h2
    have : m = n := by omega
    rw [this]
  · intro k h1 h2
    have : k = n := by omega
    rw [this]; exact hs
  · intro k h1 h2 _
    omega
  · intro k h1 h2 hok hauth hk _
    have : k = n := by omega
    subst this
    rcases hstop with h | h | h
    · exact absurd h hok
    · exact absurd h hauth
    · omega
  · intro k h1 h2 _
    omega
  · intro k h1 h2 hok hauth hk
    have : k = n := by omega
    subst this
    rcases hstop with h | h | h
    · exact absurd h hok
    · exact absurd h hauth
    · omega

theorem connectLoopSpec_retry (status : Nat → nsapi_connection_status_t)
    (conn : Nat → nsapi_error_t) (n : Nat) (hn : n ≤ 3) (retcode : nsapi_error_t)
    (r r' : ConnectResult) (hs : status n ≠ .NSAPI_STATUS_GLOBAL_UP)
    (hok : conn n ≠ .NSAPI_ERROR_OK) (hauth : conn n ≠ .NSAPI_ERROR_AUTH_FAILURE)
    (ih : ConnectLoopSpec status conn (n + 1) (conn n) r')
    (hc : r.connect_calls = r'.connect_calls) (hr : r.retcode = r'.retcode)
    (hq : r.status_queries = r'.status_queries)
    (ht : r.trace.count Action.connect = r'.trace.count Action.connect + 1)
    (hqt : r.trace.count Action.get_connection_status
      = r'.trace.count Action.get_connection_status + 1)
    (hp : pin_writes r.trace = pin_writes r'.trace) :
    ConnectLoopSpec status conn n retcode r := by
  unfold ConnectLoopSpec at ih ⊢
  obtain ⟨i1, i2, i3, i4, i5, i6, i7, i8, i9, q0, q1, q2, q3, q4, i10⟩ := ih
  rw [hc, hr, ht, hp, hq, hqt]
  refine ⟨by omega, i2, ?_, ?_, ?_, ?_, ?_, ?_, by omega, by omega, q1, ?_, ?_, by omega, i10⟩
  · constructor
    · intro h; omega
    · intro h; exact absurd h hs
  · intro h; omega
  · intro m h1 h2
    by_cases hm : m = n
    · subst hm
      exact i4 h2
    · exact i5 m (by omega) h2
  · intro k h1 h2
    by_cases hk : k = n
    · subst hk; exact hs
    · exact i6 k (by omega) h2
  · intro k h1 h2 h3
    by_cases hk : k = n
    · subst hk
      rcases h3 with h | h
      · exact absurd h hok
      · exact absurd h hauth
    · exact i7 k (by omega) h2 h3
  · intro k h1 h2 h3 h4 h5 h6
    by_cases hk : k = n
    · subst hk
      by_contra hlt
      have : r'.connect_calls = k + 1 := by omega
      exact h6 (i3.mp this)
    · exact i8 k (by omega) h2 h3 h4 h5 h6
  · intro k h1 h2 h3
    by_cases hk : k = n
    · subst hk
      rcases h3 with h | h | h
      · exact absurd h hok
      · exact absurd h hauth
      · omega
    · exact q2 k (by omega) h2 h3
  · intro k h1 h2 h3 h4 h5
    by_cases hk : k = n
    · subst hk
      omega
    · exact q3 k (by omega) h2 h3 h4 h5

theorem do_connect_loop_spec (status : Nat → nsapi_connection_status_t)
    (conn : Nat → nsapi_error_t) (d n : Nat) (hd : n + d = 4) (retcode : nsapi_error_t) :
    ConnectLoopSpec status conn n retcode (do_connect_loop status conn n retcode n) := by
  induction d generalizing n retcode with
  | zero =>
      have hn : n = 4 := by omega
      subst hn
      rw [do_connect_loop]
      by_cases hs : status 4 = .NSAPI_STATUS_GLOBAL_UP
      · exact connectLoopSpec_exit _ _ _ (by omega) _ _ hs (by simp [hs]) (by simp [hs])
          (by simp [hs]) (by simp [hs]) (by simp [hs])
          (by simp [hs, pin_writes, Action.isPinWrite])
      · by_cases ha : conn 4 = .NSAPI_ERROR_AUTH_FAILURE
        · exact connectLoopSpec_stop _ _ _ (by omega) _ _ hs (Or.inr (Or.inl ha))
            (by simp [hs, ha]) (by simp [hs, ha]) (by simp [hs, ha]) (by simp [hs, ha])
            (by simp [hs, ha]) (by simp [hs, ha, pin_writes, Action.isPinWrite])
        · by_cases ho : conn 4 = .NSAPI_ERROR_OK
          · exact connectLoopSpec_stop _ _ _ (by omega) _ _ hs (Or.inl ho)
              (by simp [hs, ho]) (by simp [hs, ho]) (by simp [hs, ho]) (by simp [hs, ho])
              (by simp [hs, ho]) (by simp [hs, ho, pin_writes, Action.isPinWrite])
          · exact connectLoopSpec_stop _ _ _ (by omega) _ _ hs (Or.inr (Or.inr (by omega)))
              (by simp [hs, ha, ho]) (by simp [hs, ha, ho]) (by simp [hs, ha, ho])
              (by simp [hs, ha, ho]) (by simp [hs, ha, ho])
              (by simp [hs, ha, ho, pin_writes, Action.isPinWrite])
  | succ d ih =>
      have hn : n ≤ 3 := by omega
      have hmod : (n + 1) % 256 = n + 1 := by omega
      have hgt : ¬ n > 3 := by omega
      rw [do_connect_loop]
      by_cases hs : status n = .NSAPI_STATUS_GLOBAL_UP
      · exact connectLoopSpec_exit _ _ _ (by omega) _ _ hs (by simp [hs]) (by simp [hs])
          (by simp [hs]) (by simp [hs]) (by simp [hs])
          (by simp [hs, pin_writes, Action.isPinWrite])
      · by_cases ha : conn n = .NSAPI_ERROR_AUTH_FAILURE
        · exact connectLoopSpec_stop _ _ _ (by omega) _ _ hs (Or.inr (Or.inl ha))
            (by simp [hs, ha]) (by simp [hs, ha]) (by simp [hs, ha]) (by simp [hs, ha])
            (by simp [hs, ha]) (by simp [hs, ha, pin_writes, Action.isPinWrite])
        · by_cases ho : conn n = .NSAPI_ERROR_OK
          · exact connectLoopSpec_stop _ _ _ (by omega) _ _ hs (Or.inl ho)
              (by simp [hs, ho]) (by simp [hs, ho]) (by simp [hs, ho]) (by simp [hs, ho])
              (by simp [hs, ho]) (by simp [hs, ho, pin_writes, Action.isPinWrite])
          · exact connectLoopSpec_retry _ _ _ hn _ _
              (do_connect_loop status conn (n + 1) (conn n) (n + 1)) hs ho ha
              (ih (n + 1) (by omega) (conn n))
              (by simp [hs, ha, ho, hgt, hmod]) (by simp [hs, ha, ho, hgt, hmod])
              (by simp [hs, ha, ho, hgt, hmod])
              (by simp [hs, ha, ho, hgt, hmod, List.count_cons])
              (by simp [hs, ha, ho, hgt, hmod, List.count_cons])
              (by simp [hs, ha, ho, hgt, hmod, pin_writes, Action.isPinWrite])

/-! ## Theorem about `do_connect` -/

/-- C10: one call of `do_connect` (a total function: the loop terminates)
makes at most five calls of `connect()`.  It makes none, and returns
`NSAPI_ERROR_OK`, exactly when the status is `NSAPI_STATUS_GLOBAL_UP` on entry;
otherwise it returns the result of its last `connect()` call.  The call with
index `k` is made exactly when `k ≤ 4`, every status read so far was not
`NSAPI_STATUS_GLOBAL_UP` and every earlier call returned an error other than
an authentication failure.  Right after a call that returns OK or an
authentication failure it stops, with no further call of the interface; after
any other error with at most three earlier retries it goes round the loop
again (it reads the status once more, calls `connect()` once more when that
status is not `NSAPI_STATUS_GLOBAL_UP`, and returns the error otherwise); and
the fifth such error makes it give up. -/
theorem do_connect_bounded (status : Nat → nsapi_connection_status_t)
    (conn : Nat → nsapi_error_t) :
    (do_connect status conn).connect_calls ≤ 5 ∧
    (do_connect status conn).trace.count Action.connect
      = (do_connect status conn).connect_calls ∧
    (do_connect status conn).trace.count Action.get_connection_status
      = (do_connect status conn).status_queries ∧
    (status 0 = .NSAPI_STATUS_GLOBAL_UP →
      (do_connect status conn).connect_calls = 0 ∧
      (do_connect status conn).retcode = .NSAPI_ERROR_OK) ∧
    ((do_connect status conn).connect_calls = 0 →
      (do_connect status conn).retcode = .NSAPI_ERROR_OK) ∧
    (∀ m, (do_connect status conn).connect_calls = m + 1 →
      (do_connect status conn).retcode = conn m) ∧
    (∀ k, k < (do_connect status conn).connect_calls →
      status k ≠ .NSAPI_STATUS_GLOBAL_UP) ∧
    (∀ k, k < (do_connect status conn).connect_calls →
      (conn k = .NSAPI_ERROR_OK ∨ conn k = .NSAPI_ERROR_AUTH_FAILURE) →
      (do_connect status conn).connect_calls = k + 1 ∧
      (do_connect status conn).status_queries = k + 1) ∧
    (∀ k, k < (do_connect status conn).connect_calls →
      conn k ≠ .NSAPI_ERROR_OK → conn k ≠ .NSAPI_ERROR_AUTH_FAILURE → k ≤ 3 →
      k + 2 ≤ (do_connect status conn).status_queries ∧
      (status (k + 1) ≠ .NSAPI_STATUS_GLOBAL_UP →
        k + 1 < (do_connect status conn).connect_calls)) ∧
    ((∀ k, k ≤ 4 → status k ≠ .NSAPI_STATUS_GLOBAL_UP ∧ conn k ≠ .NSAPI_ERROR_OK ∧
        conn k ≠ .NSAPI_ERROR_AUTH_FAILURE) →
      (do_connect status conn).connect_calls = 5 ∧
      (do_connect status conn).status_queries = 5 ∧
      (do_connect status conn).retcode = conn 4) ∧
    ((do_connect status conn).connect_calls = 0 ↔ status 0 = .NSAPI_STATUS_GLOBAL_UP) ∧
    (∀ k, k < (do_connect status conn).connect_calls ↔
      k ≤ 4 ∧ (∀ j, j ≤ k → status j ≠ .NSAPI_STATUS_GLOBAL_UP) ∧
      (∀ j, j < k → conn j ≠ .NSAPI_ERROR_OK ∧ conn j ≠ .NSAPI_ERROR_AUTH_FAILURE)) ∧
    (status 0 ≠ .NSAPI_STATUS_GLOBAL_UP →
      (conn 0 = .NSAPI_ERROR_OK ∨ conn 0 = .NSAPI_ERROR_AUTH_FAILURE) →
      (do_connect status conn).connect_calls = 1 ∧
      (do_connect status conn).status_queries = 1 ∧
      (do_connect status conn).retcode = conn 0) ∧
    ((do_connect status conn).connect_calls = 0 →
      (do_connect status conn).status_queries = 1) ∧
    (∀ k, k < (do_connect status conn).connect_calls →
      conn k ≠ .NSAPI_ERROR_OK → conn k ≠ .NSAPI_ERROR_AUTH_FAILURE → k ≤ 3 →
      status (k + 1) = .NSAPI_STATUS_GLOBAL_UP →
      (do_connect status conn).connect_calls = k + 1 ∧
      (do_connect status conn).status_queries = k + 2 ∧
      (do_connect status conn).retcode = conn k) ∧
    (4 < (do_connect status conn).connect_calls →
      (do_connect status conn).connect_calls = 5 ∧
      (do_connect status conn).status_queries = 5 ∧
      (do_connect status conn).retcode = conn 4) := by
  have hspec := do_connect_loop_spec status conn 4 0 (by omega) .NSAPI_ERROR_OK
  unfold ConnectLoopSpec at hspec
  obtain ⟨-, h2, h3, h4, h5, h6, h7, h8, h9, q0, q1, q2, q3, q4, -⟩ := hspec
  unfold do_connect
  have hmade : ∀ k, k < (do_connect_loop status conn 0 .NSAPI_ERROR_OK 0).connect_calls ↔
      k ≤ 4 ∧ (∀ j, j ≤ k → status j ≠ .NSAPI_STATUS_GLOBAL_UP) ∧
      (∀ j, j < k → conn j ≠ .NSAPI_ERROR_OK ∧ conn j ≠ .NSAPI_ERROR_AUTH_FAILURE) := by
    intro k
    constructor
    · intro hk
      refine ⟨by omega, fun j hj => h6 j (by omega) (by omega), fun j hj => ?_⟩
      constructor
      · intro hok
        have := h7 j (by omega) (by omega) (Or.inl hok)
        omega
      · intro hauth
        have := h7 j (by omega) (by omega) (Or.inr hauth)
        omega
    · intro hk
      induction k with
      | zero =>
          rcases Nat.eq_zero_or_pos
            (do_connect_loop status conn 0 .NSAPI_ERROR_OK 0).connect_calls with h | h
          · exact absurd (h3.mp h) (hk.2.1 0 (le_refl _))
          · exact h
      | succ k ih =>
          have hprev := ih ⟨by omega, fun j hj => hk.2.1 j (by omega),
            fun j hj => hk.2.2 j (by omega)⟩
          exact h8 k (by omega) hprev (hk.2.2 k (by omega)).1 (hk.2.2 k (by omega)).2
            (by omega) (hk.2.1 (k + 1) (le_refl _))
  have hfive : 4 < (do_connect_loop status conn 0 .NSAPI_ERROR_OK 0).connect_calls →
      (do_connect_loop status conn 0 .NSAPI_ERROR_OK 0).connect_calls = 5 ∧
      (do_connect_loop status conn 0 .NSAPI_ERROR_OK 0).status_queries = 5 ∧
      (do_connect_loop status conn 0 .NSAPI_ERROR_OK 0).retcode = conn 4 := by
    intro h
    have c5 : (do_connect_loop status conn 0 .NSAPI_ERROR_OK 0).connect_calls = 5 := by omega
    exact ⟨c5, q2 4 (by omega) (by omega) (Or.inr (Or.inr (by omega))), h5 4 (by omega) c5⟩
  refine ⟨h2, by omega, by omega, ?_, h4, ?_, ?_, ?_, ?_, ?_, h3, hmade, ?_, ?_, ?_, hfive⟩
  · intro hs
    exact ⟨h3.mpr hs, h4 (h3.mpr hs)⟩
  · intro m hm
    exact h5 m (by omega) hm
  · intro k hk
    exact h6 k (by omega) hk
  · intro k hk hstop
    refine ⟨h7 k (by omega) hk hstop, q2 k (by omega) hk ?_⟩
    rcases hstop with h | h
    · exact Or.inl h
    · exact Or.inr (Or.inl h)
  · intro k hk hok hauth hk3
    exact ⟨q3 k (by omega) hk hok hauth hk3, h8 k (by omega) hk hok hauth hk3⟩
  · intro hall
    exact hfive ((hmade 4).mpr ⟨le_refl _, fun j hj => (hall j hj).1,
      fun j hj => ⟨(hall j (by omega)).2.1, (hall j (by omega)).2.2⟩⟩)
  · intro hs hstop
    have h0 : 0 < (do_connect_loop status conn 0 .NSAPI_ERROR_OK 0).connect_calls :=
      (hmade 0).mpr ⟨by omega, fun j hj => by
        have : j = 0 := by omega
        rw [this]; exact hs, fun j hj => absurd hj (by omega)⟩
    have hc := h7 0 (by omega) h0 hstop
    refine ⟨hc, q2 0 (by omega) h0 ?_, h5 0 (by omega) hc⟩
    rcases hstop with h | h
    · exact Or.inl h
    · exact Or.inr (Or.inl h)
  · intro hc
    omega
  · intro k hk hok hauth hk3 hup
    have hc : (do_connect_loop status conn 0 .NSAPI_ERROR_OK 0).connect_calls = k + 1 := by
      by_contra hne
      exact h6 (k + 1) (by omega) (by omega) hup
    have hq := q3 k (by omega) hk hok hauth hk3
    exact ⟨hc, by omega, h5 k (by omega) hc⟩

/-- Instances of C10: with the link down, a `connect()` that reports an
authentication failure is called once and that failure is returned; a
`connect()` that always fails with the same other error is called five times;
and with the link already up no call is made and OK is returned. -/
theorem do_connect_bounded_witness :
    ((do_connect (fun _ => .NSAPI_STATUS_DISCONNECTED)
        (fun _ => .NSAPI_ERROR_AUTH_FAILURE)).connect_calls = 1 ∧
      (do_connect (fun _ => .NSAPI_STATUS_DISCONNECTED)
        (fun _ => .NSAPI_ERROR_AUTH_FAILURE)).status_queries = 1 ∧
      (do_connect (fun _ => .NSAPI_STATUS_DISCONNECTED)
        (fun _ => .NSAPI_ERROR_AUTH_FAILURE)).retcode = .NSAPI_ERROR_AUTH_FAILURE) ∧
    ((do_connect (fun _ => .NSAPI_STATUS_DISCONNECTED)
        (fun _ => .unlisted (-3004))).connect_calls = 5 ∧
      (do_connect (fun _ => .NSAPI_STATUS_DISCONNECTED)
        (fun _ => .unlisted (-3004))).status_queries = 5 ∧
      (do_connect (fun _ => .NSAPI_STATUS_DISCONNECTED)
        (fun _ => .unlisted (-3004))).retcode = .unlisted (-3004)) ∧
    ((do_connect (fun _ => .NSAPI_STATUS_GLOBAL_UP) (fun _ => .unlisted (-3004))).connect_calls
        = 0 ∧
      (do_connect (fun _ => .NSAPI_STATUS_GLOBAL_UP) (fun _ => .unlisted (-3004))).retcode
        = .NSAPI_ERROR_OK) :=
  ⟨(do_connect_bounded (fun _ => .NSAPI_STATUS_DISCONNECTED)
      (fun _ => .NSAPI_ERROR_AUTH_FAILURE)).2.2.2.2.2.2.2.2.2.2.2.2.1
      (by decide) (Or.inr rfl),
   (do_connect_bounded (fun _ => .NSAPI_STATUS_DISCONNECTED)
      (fun _ => .unlisted (-3004))).2.2.2.2.2.2.2.2.2.1
      (fun _ _ => ⟨by decide, by decide, by decide⟩),
   (do_connect_bounded (fun _ => .NSAPI_STATUS_GLOBAL_UP)
      (fun _ => .unlisted (-3004))).2.2.2.1 rfl⟩

/-! ## Lemmas about `main` -/

theorem pin_writes_append (a b : List Action) :
    pin_writes (a ++ b) = pin_writes a ++ pin_writes b := by
  simp [pin_writes, List.filter_append]

theorem pin_writes_andThen (a b : List Action) (ha : pin_writes a = [])
    (hb : pin_writes b = []) : pin_writes (andThen a b) = [] := by
  unfold andThen
  split
  · exact ha
  · rw [pin_writes_append, ha, hb]; rfl

theorem pin_writes_blink_led (aCount : Int) : pin_writes (blink_led aCount) = [] := by
  unfold blink_led
  induction aCount.toNat with
  | zero => rfl
  | succ n ih =>
      rw [blink_led_loop, pin_writes_append, ih]
      rfl

theorem network_calls_blink_led (aCount : Int) :
    ∀ a ∈ blink_led aCount, a.isNetworkCall = false := by
  unfold blink_led
  induction aCount.toNat with
  | zero => simp [blink_led_loop]
  | succ n ih =>
      intro a ha
      rw [blink_led_loop, List.mem_append] at ha
      rcases ha with ha | ha
      · revert a
        decide
      · exact ih a ha

theorem pin_writes_demo_loop_body (s : DemoLocals) (ret : Int) :
    pin_writes (demo_loop_body s ret).trace = [] := by
  have hsr : pin_writes SYSTEM_RECOVERY = [] := by decide
  have hlog : ∀ (l : LogLevel) (f : String), pin_writes [Action.log l f] = [] := by
    intro l f
    simp [pin_writes, Action.isPinWrite]
  have hcall : ∀ v : Int,
      pin_writes [Action.sleep_for 1000, Action.send_dweet_signal "Signal" v] = [] := by
    intro v
    simp [pin_writes, Action.isPinWrite]
  unfold demo_loop_body
  dsimp only
  by_cases h1 : (0 : Int) ≠ ret
  · by_cases h2 : 3 ≤ int_incr s.consecutiveFail
    · rw [if_pos h1, if_pos h2]
      dsimp only
      apply pin_writes_andThen
      · apply pin_writes_andThen
        · rw [pin_writes_append, pin_writes_append, pin_writes_append, hcall,
            pin_writes_blink_led, hlog, hlog]
          rfl
        · exact hsr
      · exact hlog _ _
    · rw [if_pos h1, if_neg h2]
      dsimp only
      rw [pin_writes_append, pin_writes_append, pin_writes_append, hcall,
        pin_writes_blink_led, hlog, hlog]
      rfl
  · rw [if_neg h1]
    dsimp only
    rw [pin_writes_append, pin_writes_append, hcall, pin_writes_blink_led, hlog]
    rfl

theorem pin_writes_demo_loop (s : DemoLocals) (rets : List Int) :
    pin_writes (demo_loop s rets) = [] := by
  induction rets generalizing s with
  | nil => rfl
  | cons r rest ih =>
      rw [demo_loop]
      exact pin_writes_andThen _ _ (pin_writes_demo_loop_body s r) (ih _)

theorem pin_writes_demo_loop_idle (n : Nat) : pin_writes (demo_loop_idle n) = [] := by
  induction n with
  | zero => rfl
  | succ n ih =>
      rw [demo_loop_idle, pin_writes_append, pin_writes_append, ih, pin_writes_blink_led]
      rfl

theorem pin_writes_do_connect (status : Nat → nsapi_connection_status_t)
    (conn : Nat → nsapi_error_t) : pin_writes (do_connect status conn).trace = [] := by
  have hspec := do_connect_loop_spec status conn 4 0 (by omega) .NSAPI_ERROR_OK
  unfold ConnectLoopSpec at hspec
  obtain ⟨-, -, -, -, -, -, -, -, -, -, -, -, -, -, hp⟩ := hspec
  exact hp

theorem pin_writes_connect_phase (status : Nat → nsapi_connection_status_t)
    (conn : Nat → nsapi_error_t) (attempts : Nat) :
    pin_writes (connect_phase status conn attempts).1 = [] := by
  induction attempts generalizing status conn with
  | zero => rfl
  | succ n ih =>
      rw [connect_phase]
      by_cases h : (do_connect status conn).retcode ≠ .NSAPI_ERROR_OK
      · simp only [h, if_true, not_false_eq_true, ne_eq]
        rw [pin_writes_append, pin_writes_append, pin_writes_do_connect, ih]
        rfl
      · simp only [h, if_false]
        exact pin_writes_do_connect status conn

theorem pin_writes_main_network (cfg : BuildConfig) (found : Bool)
    (status : Nat → nsapi_connection_status_t) (conn : Nat → nsapi_error_t) (attempts : Nat) :
    pin_writes (main_network cfg found status conn attempts).1 = [] := by
  unfold main_network
  cases found <;>
    simp only [pin_writes_append, pin_writes_connect_phase, if_true, if_false,
      Bool.false_eq_true] <;>
    cases cfg.MBED_CONF_NSAPI_DEFAULT_CELLULAR_PLMN <;> rfl

theorem pins_after_pin_writes (p : ModemPins) (t : List Action) :
    pins_after p t = pins_after p (pin_writes t) := by
  unfold pins_after pin_writes
  induction t generalizing p with
  | nil => rfl
  | cons a t ih =>
      cases a <;> simp [List.filter, Action.isPinWrite, apply_action, ih]

theorem pin_writes_main_rest (cfg : BuildConfig) (found : Bool)
    (status : Nat → nsapi_connection_status_t)
    (conn : Nat → nsapi_error_t) (attempts : Nat) (rets : List Int) (idle : Nat) :
    pin_writes
      (match cfg.MBED_APP_CONF_TEST_TYPE with
        | TestType.DEMO_NONE => demo_loop_idle idle
        | TestType.DEMO_DWEET_SIGNAL =>
            (main_network cfg found status conn attempts).1 ++
              (if (main_network cfg found status conn attempts).2
                then demo_loop demo_loop_entry rets else [])) = [] := by
  cases cfg.MBED_APP_CONF_TEST_TYPE with
  | DEMO_NONE => exact pin_writes_demo_loop_idle idle
  | DEMO_DWEET_SIGNAL =>
      dsimp only
      rw [pin_writes_append, pin_writes_main_network]
      split
      · rw [pin_writes_demo_loop]; rfl
      · rfl

/-! ## Theorems about `main` -/

/-- C9, as stated, fails: the first modem line `main` drives is `modem_chen`,
not `modem_remap`, so the writes are not in the order remap, chen, reset,
reset. -/
theorem main_pin_order_counterexample :
    pin_writes (main
        { MBED_CONF_MBED_TRACE_ENABLE := false,
          MBED_APP_CONF_TEST_TYPE := TestType.DEMO_DWEET_SIGNAL,
          MBED_CONF_NSAPI_DEFAULT_CELLULAR_PLMN := false }
        true (fun _ => .NSAPI_STATUS_DISCONNECTED) (fun _ => .NSAPI_ERROR_OK) 0 [] 0)
      ≠ [Action.pin_write ModemPin.modem_remap 0, Action.pin_write ModemPin.modem_chen 0,
         Action.pin_write ModemPin.modem_reset 0, Action.pin_write ModemPin.modem_reset 1] := by
  decide

/-- C9, amended: in every build and for every behaviour of the network,
`main` drives the modem lines in the order chen=0, remap=0, reset=0, then
sleeps 100 ms, then reset=1; nothing before that touches the modem lines or
the network interface, nothing after it touches the modem lines again, and
the lines end at chen=0, remap=0, reset=1. -/
theorem main_modem_startup (cfg : BuildConfig) (found : Bool)
    (status : Nat → nsapi_connection_status_t)
    (conn : Nat → nsapi_error_t) (attempts : Nat) (rets : List Int) (idle : Nat) :
    (∃ pre post,
      main cfg found status conn attempts rets idle
        = pre ++ [Action.pin_write ModemPin.modem_chen 0,
                  Action.pin_write ModemPin.modem_remap 0,
                  Action.pin_write ModemPin.modem_reset 0,
                  Action.sleep_for 100,
                  Action.pin_write ModemPin.modem_reset 1] ++ post ∧
      pin_writes pre = [] ∧
      (∀ a ∈ pre, a.isNetworkCall = false) ∧
      pin_writes post = []) ∧
    pin_writes (main cfg found status conn attempts rets idle)
      = [Action.pin_write ModemPin.modem_chen 0, Action.pin_write ModemPin.modem_remap 0,
         Action.pin_write ModemPin.modem_reset 0, Action.pin_write ModemPin.modem_reset 1] ∧
    pins_after pins_at_construction (main cfg found status conn attempts rets idle)
      = { modem_chen := 0, modem_remap := 0, modem_reset := 1 } := by
  have hrest := pin_writes_main_rest cfg found status conn attempts rets idle
  have hpre : pin_writes
      ((if cfg.MBED_CONF_MBED_TRACE_ENABLE then [Action.trace_open] else []) ++
        [Action.log LogLevel.LOG_HI "RM6100 Demo\n",
         Action.log LogLevel.LOG_HI "Built: %s, %s\n",
         Action.sleep_for 100] ++ blink_led 1) = [] := by
    rw [pin_writes_append, pin_writes_append, pin_writes_blink_led]
    cases cfg.MBED_CONF_MBED_TRACE_ENABLE <;> rfl
  have hwrites : pin_writes (main cfg found status conn attempts rets idle)
      = [Action.pin_write ModemPin.modem_chen 0, Action.pin_write ModemPin.modem_remap 0,
         Action.pin_write ModemPin.modem_reset 0, Action.pin_write ModemPin.modem_reset 1] := by
    unfold main main_startup
    rw [pin_writes_append, hrest, pin_writes_append, pin_writes_append, pin_writes_append,
      hpre, pin_writes_blink_led]
    rfl
  refine ⟨⟨(if cfg.MBED_CONF_MBED_TRACE_ENABLE then [Action.trace_open] else []) ++
        [Action.log LogLevel.LOG_HI "RM6100 Demo\n",
         Action.log LogLevel.LOG_HI "Built: %s, %s\n",
         Action.sleep_for 100] ++ blink_led 1,
      [Action.sleep_for 1000] ++ blink_led 3 ++
        (match cfg.MBED_APP_CONF_TEST_TYPE with
          | TestType.DEMO_NONE => demo_loop_idle idle
          | TestType.DEMO_DWEET_SIGNAL =>
              (main_network cfg found status conn attempts).1 ++
                (if (main_network cfg found status conn attempts).2
                  then demo_loop demo_loop_entry rets else [])),
      ?_, hpre, ?_, ?_⟩, hwrites, ?_⟩
  · unfold main main_startup
    simp only [List.append_assoc]
  · intro a ha
    rw [List.mem_append, List.mem_append] at ha
    rcases ha with (ha | ha) | ha
    · by_cases ht : cfg.MBED_CONF_MBED_TRACE_ENABLE = true
      · rw [if_pos ht, List.mem_singleton] at ha
        rw [ha]
        rfl
      · rw [if_neg ht] at ha
        exact absurd ha (List.not_mem_nil a)
    · revert a
      decide
    · exact network_calls_blink_led 1 a ha
  · rw [pin_writes_append, pin_writes_append, hrest, pin_writes_blink_led]
    rfl
  · rw [pins_after_pin_writes, hwrites]
    rfl

end RM6100
